import Mathlib
/-!
Shallow embedding of the NBA playoff simulation and odds-aggregation engine
of this repository (`ml-service/services/playoff_predictor.py` and
`ml-service/services/championship_calculator.py`), together with theorems
settling the specification claims about it.

Modelling conventions:
* Python floats are modelled as exact real numbers (`ℝ`) where the value is
  produced by the Elo formula `1 / (1 + 10 ** ((rB - rA) / 400))`, and as
  rationals (`ℚ`) everywhere else (counters, averages, ratios, thresholds),
  since all other arithmetic in the source is ratios of integers.
* Team ratings are a total map `ℤ → ℚ`; this models
  `prediction_service.team_ratings.get(team_id, 1500)` (a dict lookup with
  default 1500).
* Ambient randomness (`random.random()`, `np.random.random()`,
  `random.choice`) is modelled as a stream `ℕ → ℚ` of uniform draws in [0,1)
  together with an explicitly threaded position; every primitive draw
  consumes one stream element.
* Python exceptions (IndexError / KeyError / ZeroDivisionError) are modelled
  by `Option`: a function that can raise returns `none` on the raising
  inputs, and callers with `try/except` blocks map `none` to their
  documented default result.
-/

/-- A conference-standings entry, as produced by
`PlayoffPredictor.simulate_season_standings` and consumed by the bracket
builder and the championship calculator (source: the dict literal at
playoff_predictor.py lines 92-102). -/
structure SeedEntry where
  rank : ℕ
  team_id : ℤ
  team_name : String
  team_abbreviation : String
  projected_wins : ℚ
  projected_losses : ℚ
  win_percentage : ℚ
  playoff_probability : ℚ
  championship_odds : ℚ
deriving DecidableEq, Repr

/-- Team-ratings map: models `team_ratings.get(team_id, 1500)`. -/
abbrev Ratings := ℤ → ℚ

/-- Stream of uniform random draws in [0,1); the `ℕ` argument is the
position of the draw in program order. -/
abbrev Rng := ℕ → ℚ

/-- Conference standings: the `Dict[str, List[Dict]]` of the source, as an
association list preserving Python dict insertion order. -/
abbrev Standings := List (String × List SeedEntry)

/-- The Elo-style single-game win probability
`1 / (1 + 10 ** ((rating_b - rating_a) / 400))`, which appears verbatim in
`_simulate_head_to_head` (championship_calculator.py line 215),
`_predict_series` (playoff_predictor.py line 299) and
`_simulate_team_season` (playoff_predictor.py line 160). -/
noncomputable def winProbability (ratingA ratingB : ℚ) : ℝ :=
  1 / (1 + (10 : ℝ) ^ ((((ratingB - ratingA) : ℚ) : ℝ) / 400))

/-- Python's `round(x, d)`, on exact rationals. (Python rounds ties to even
on binary floats; no value in this development is an exact tie at the
rounded digit, so round-half-up on `ℚ` is an equivalent model there.) -/
def pyRound (d : ℕ) (x : ℚ) : ℚ :=
  (round (x * 10 ^ d) : ℚ) / 10 ^ d

/-- Python's `random.choice([a, b])`, consuming one uniform draw. -/
def choice2 {α : Type} (a b : α) (u : ℚ) : α :=
  if u < 1 / 2 then a else b

/-! ### ChampionshipCalculator: single-playoff simulation
(championship_calculator.py) -/

/-- `_simulate_head_to_head` (championship_calculator.py lines 209-225):
one boosted Bernoulli game.  `team1_win_prob` is the Elo formula on the two
ratings, the played probability is `min(0.95, team1_win_prob * 1.1)`, and
team1 wins iff the uniform draw is below it.  (The source `except` fallback can
only trigger on a float overflow, which has no counterpart in exact real
arithmetic, so it is not modelled.) -/
noncomputable def simulate_head_to_head (ratings : Ratings) (rng : Rng)
    (team1 team2 : SeedEntry) (pos : ℕ) : SeedEntry × ℕ :=
  let team1_win_prob := winProbability (ratings team1.team_id) (ratings team2.team_id)
  let team1_series_prob := min (0.95 : ℝ) (team1_win_prob * 1.1)
  (if ((rng pos : ℚ) : ℝ) < team1_series_prob then team1 else team2, pos + 1)

/-- `_simulate_play_in` (championship_calculator.py lines 170-185). -/
noncomputable def simulate_play_in (ratings : Ratings) (rng : Rng)
    (teams : List SeedEntry) (pos : ℕ) : List SeedEntry × ℕ :=
  if teams.length < 4 then (teams.take 2, pos)
  else
    match teams with
    | t0 :: t1 :: t2 :: t3 :: _ =>
      let g1 := simulate_head_to_head ratings rng t0 t1 pos
      let game1_winner := g1.1
      let game1_loser := if game1_winner = t0 then t1 else t0
      let g2 := simulate_head_to_head ratings rng t2 t3 g1.2
      let game2_winner := g2.1
      let g3 := simulate_head_to_head ratings rng game1_loser game2_winner g2.2
      ([game1_winner, g3.1], g3.2)
    | _ => (teams.take 2, pos)

/-- Sequential pairing `[(teams[i], teams[i+1]) for i in range(0, len-1, 2)]`
used by `_simulate_playoff_round` for the rounds after the first. -/
def pairSequential : List SeedEntry → List (SeedEntry × SeedEntry)
  | a :: b :: rest => (a, b) :: pairSequential rest
  | _ => []

/-- `_simulate_playoff_round` (championship_calculator.py lines 187-207).
Returns `none` exactly when Python raises `IndexError` (a `first_round`
call with between 2 and 7 teams indexes `teams[7]`). -/
noncomputable def simulate_playoff_round (ratings : Ratings) (rng : Rng)
    (teams : List SeedEntry) (round_name : String) (pos : ℕ) :
    Option (List SeedEntry × ℕ) :=
  if teams.length ≤ 1 then some (teams, pos)
  else
    let matchups? : Option (List (SeedEntry × SeedEntry)) :=
      if round_name = "first_round" then
        match teams with
        | t0 :: t1 :: t2 :: t3 :: t4 :: t5 :: t6 :: t7 :: _ =>
          some [(t0, t7), (t1, t6), (t2, t5), (t3, t4)]
        | _ => none
      else some (pairSequential teams)
    matchups?.map fun matchups =>
      matchups.foldl
        (fun acc m =>
          let w := simulate_head_to_head ratings rng m.1 m.2 acc.2
          (acc.1 ++ [w.1], w.2))
        (([] : List SeedEntry), pos)

/-- Per-conference log of `playoff_result['round_results']` entries that
`_simulate_conference_playoffs` appends for one conference. -/
structure ConfLog where
  play_in : List ℤ
  first_round : List ℤ
  conference_semifinals : List ℤ
  conference_finals : List ℤ
deriving DecidableEq, Repr

/-- The `while len(playoff_teams) < 8 and len(teams) > len(playoff_teams)`
fill loop of `_simulate_conference_playoffs` (lines 149-150). -/
def fill_playoff_teams (teams playoff : List SeedEntry) : List SeedEntry :=
  if h : playoff.length < 8 ∧ playoff.length < teams.length then
    fill_playoff_teams teams (playoff ++ [teams.get ⟨playoff.length, h.2⟩])
  else playoff
termination_by teams.length - playoff.length
decreasing_by simp; omega

/-- `_simulate_conference_playoffs` (championship_calculator.py lines
134-168).  Returns the conference champion and the per-round id log;
`none` models the `IndexError` paths (`playoff_teams[0]` on an empty list,
or a malformed first round). -/
noncomputable def simulate_conference_playoffs (ratings : Ratings) (rng : Rng)
    (teams : List SeedEntry) (pos : ℕ) : Option (SeedEntry × ConfLog × ℕ) :=
  let play_in_teams := if 10 ≤ teams.length then (teams.drop 6).take 4 else []
  let playoff_teams0 := teams.take 6
  let step1 : List SeedEntry × List ℤ × ℕ :=
    if 4 ≤ play_in_teams.length then
      let w := simulate_play_in ratings rng play_in_teams pos
      (playoff_teams0 ++ w.1, play_in_teams.map (·.team_id), w.2)
    else (playoff_teams0, [], pos)
  let playoff_teams := fill_playoff_teams teams step1.1
  match simulate_playoff_round ratings rng playoff_teams "first_round" step1.2.2 with
  | none => none
  | some (first_round_winners, pos2) =>
    match simulate_playoff_round ratings rng first_round_winners "semifinals" pos2 with
    | none => none
    | some (semifinals_winners, pos3) =>
      if 2 ≤ semifinals_winners.length then
        match simulate_playoff_round ratings rng semifinals_winners "finals" pos3 with
        | none => none
        | some ([], _) => none
        | some (finals_winner :: _, pos4) =>
          some (finals_winner,
            { play_in := step1.2.1,
              first_round := first_round_winners.map (·.team_id),
              conference_semifinals := semifinals_winners.map (·.team_id),
              conference_finals := [finals_winner.team_id] }, pos4)
      else
        match semifinals_winners with
        | w :: _ =>
          some (w,
            { play_in := step1.2.1,
              first_round := first_round_winners.map (·.team_id),
              conference_semifinals := semifinals_winners.map (·.team_id),
              conference_finals := [] }, pos3)
        | [] =>
          match playoff_teams with
          | t :: _ =>
            some (t,
              { play_in := step1.2.1,
                first_round := first_round_winners.map (·.team_id),
                conference_semifinals := [],
                conference_finals := [] }, pos3)
          | [] => none

/-- The fixed conference-keyed dicts (`{'Eastern': [], 'Western': []}`) of
`playoff_result['round_results']`, as an association list. -/
abbrev ConfMap (β : Type) := List (String × β)

/-- Append `ids` to the entry of `conf` in a conference-keyed dict of lists;
`none` models the `KeyError` raised when `conf` is not a key. -/
def appendConf {β : Type} (m : ConfMap (List β)) (conf : String) (ids : List β) :
    Option (ConfMap (List β)) :=
  if (m.lookup conf).isSome then
    some (m.map fun e => if e.1 = conf then (e.1, e.2 ++ ids) else e)
  else none

/-- Set the entry of `conf` in a conference-keyed dict, adding the key at
the end if absent (Python dict assignment semantics). -/
def upsertConf {β : Type} (m : ConfMap β) (conf : String) (b : β) : ConfMap β :=
  if (m.lookup conf).isSome then
    m.map fun e => if e.1 = conf then (e.1, b) else e
  else m ++ [(conf, b)]

/-- The `playoff_result` dict built by `_simulate_single_playoff`
(championship_calculator.py lines 106-116). -/
structure PlayoffResult where
  champion : Option SeedEntry
  finals_teams : List SeedEntry
  conference_champions : ConfMap (Option SeedEntry)
  play_in : ConfMap (List ℤ)
  first_round : ConfMap (List ℤ)
  conference_semifinals : ConfMap (List ℤ)
  conference_finals : ConfMap (List ℤ)
deriving DecidableEq, Repr

/-- `_simulate_finals` (championship_calculator.py lines 227-229): the
east champion is passed as the first-listed team of the head-to-head. -/
noncomputable def simulate_finals (ratings : Ratings) (rng : Rng)
    (east_champ west_champ : SeedEntry) (pos : ℕ) : SeedEntry × ℕ :=
  simulate_head_to_head ratings rng east_champ west_champ pos

/-- `_simulate_single_playoff` (championship_calculator.py lines 104-132).
Conferences are processed in the insertion order of the standings dict;
`none` models a propagated IndexError/KeyError. -/
noncomputable def simulate_single_playoff (ratings : Ratings) (rng : Rng)
    (standings : Standings) (pos : ℕ) : Option (PlayoffResult × ℕ) :=
  let init : PlayoffResult :=
    { champion := none
      finals_teams := []
      conference_champions := [("Eastern", none), ("Western", none)]
      play_in := [("Eastern", []), ("Western", [])]
      first_round := [("Eastern", []), ("Western", [])]
      conference_semifinals := [("Eastern", []), ("Western", [])]
      conference_finals := [("Eastern", []), ("Western", [])] }
  let perConf : Option (PlayoffResult × ℕ) :=
    standings.foldl
      (fun acc ct =>
        match acc with
        | none => none
        | some (pr, p) =>
          match simulate_conference_playoffs ratings rng ct.2 p with
          | none => none
          | some (champ, log, p') =>
            match appendConf pr.play_in ct.1 log.play_in with
            | none => none
            | some pi =>
              match appendConf pr.first_round ct.1 log.first_round with
              | none => none
              | some fr =>
                match appendConf pr.conference_semifinals ct.1
                    log.conference_semifinals with
                | none => none
                | some sf =>
                  match appendConf pr.conference_finals ct.1
                      log.conference_finals with
                  | none => none
                  | some cf =>
                    some ({ pr with
                      conference_champions :=
                        upsertConf pr.conference_champions ct.1 (some champ)
                      finals_teams := pr.finals_teams ++ [champ]
                      play_in := pi, first_round := fr,
                      conference_semifinals := sf, conference_finals := cf }, p'))
      (some (init, pos))
  perConf.map fun (pr, p) =>
    match pr.finals_teams with
    | [east_champ, west_champ] =>
      let w := simulate_finals ratings rng east_champ west_champ p
      ({ pr with champion := some w.1 }, w.2)
    | _ => (pr, p)

/-! ### ChampionshipCalculator: tallying and aggregation -/

/-- The per-team counters initialised at championship_calculator.py lines
76-86. -/
structure Tally where
  championships : ℕ
  conference_finals : ℕ
  conference_semifinals : ℕ
  first_round : ℕ
  play_in : ℕ
  missed_playoffs : ℕ
  finals_appearances : ℕ
deriving DecidableEq, Repr

def Tally.zero : Tally := ⟨0, 0, 0, 0, 0, 0, 0⟩

/-- One entry of the `team_results` dict before probability conversion. -/
structure TeamResult where
  team_info : SeedEntry
  conference : String
  tally : Tally
deriving DecidableEq, Repr

abbrev TeamResults := List (ℤ × TeamResult)

/-- Python dict insertion with overwrite (`team_results[team_id] = ...`):
an existing key keeps its position, a new key is appended. -/
def upsertResult (tr : TeamResults) (id : ℤ) (r : TeamResult) : TeamResults :=
  if (tr.lookup id).isSome then
    tr.map fun e => if e.1 = id then (e.1, r) else e
  else tr ++ [(id, r)]

/-- The initialisation loop of `_run_championship_simulations`
(championship_calculator.py lines 72-86). -/
def init_team_results (standings : Standings) : TeamResults :=
  standings.foldl
    (fun tr ct =>
      ct.2.foldl
        (fun tr team =>
          upsertResult tr team.team_id
            { team_info := team, conference := ct.1, tally := Tally.zero })
        tr)
    []

/-- Bump one tally field of the entry with key `id` (a no-op when the key
is absent; the guarded update paths of `_update_team_results` test
`team_id in team_results` explicitly, and the unguarded ones only receive
champions drawn from the standings, where the key is always present). -/
def bumpTally (tr : TeamResults) (id : ℤ) (f : Tally → Tally) : TeamResults :=
  tr.map fun e =>
    if e.1 = id then (e.1, { e.2 with tally := f e.2.tally }) else e

/-- `_update_team_results` (championship_calculator.py lines 231-252),
processing the champion, finals appearances, conference champions and the
four round-result dicts in source order. -/
def update_team_results (tr : TeamResults) (pr : PlayoffResult) : TeamResults :=
  let tr := match pr.champion with
    | some c => bumpTally tr c.team_id
        (fun t => { t with championships := t.championships + 1 })
    | none => tr
  let tr := pr.finals_teams.foldl
    (fun tr team => bumpTally tr team.team_id
      (fun t => { t with finals_appearances := t.finals_appearances + 1 })) tr
  let tr := pr.conference_champions.foldl
    (fun tr e =>
      match e.2 with
      | some c => bumpTally tr c.team_id
          (fun t => { t with conference_finals := t.conference_finals + 1 })
      | none => tr) tr
  let bumpRound (tr : TeamResults) (m : ConfMap (List ℤ)) (f : Tally → Tally) :
      TeamResults :=
    m.foldl (fun tr e => e.2.foldl (fun tr id => bumpTally tr id f) tr) tr
  let tr := bumpRound tr pr.play_in
    (fun t => { t with play_in := t.play_in + 1 })
  let tr := bumpRound tr pr.first_round
    (fun t => { t with first_round := t.first_round + 1 })
  let tr := bumpRound tr pr.conference_semifinals
    (fun t => { t with conference_semifinals := t.conference_semifinals + 1 })
  let tr := bumpRound tr pr.conference_finals
    (fun t => { t with conference_finals := t.conference_finals + 1 })
  tr

/-- The simulation loop of `_run_championship_simulations`
(championship_calculator.py lines 88-94): `n` sequential calls to
`_simulate_single_playoff`, each followed by `_update_team_results`. -/
noncomputable def run_simulation_loop (ratings : Ratings) (rng : Rng)
    (standings : Standings) (pos : ℕ) : ℕ → Option (TeamResults × ℕ)
  | 0 => some (init_team_results standings, pos)
  | n + 1 =>
    match run_simulation_loop ratings rng standings pos n with
    | none => none
    | some (tr, p) =>
      match simulate_single_playoff ratings rng standings p with
      | none => none
      | some (pr, p') => some (update_team_results tr pr, p')

/-- The converted per-team probabilities added by the final loop of
`_run_championship_simulations` (lines 96-100). -/
structure TallyProbs where
  championships_probability : ℚ
  conference_finals_probability : ℚ
  conference_semifinals_probability : ℚ
  first_round_probability : ℚ
  play_in_probability : ℚ
  missed_playoffs_probability : ℚ
  finals_appearances_probability : ℚ
deriving DecidableEq, Repr

/-- A `team_results` entry after probability conversion. -/
structure TeamResultP where
  team_info : SeedEntry
  conference : String
  tally : Tally
  probs : TallyProbs
deriving DecidableEq, Repr

/-- The per-team count-to-probability conversion of
`_run_championship_simulations` (lines 97-100): each counter divided by
`simulations`. -/
def convert_team_result (r : TeamResult) (simulations : ℤ) : TeamResultP :=
  { team_info := r.team_info
    conference := r.conference
    tally := r.tally
    probs :=
      { championships_probability :=
          (r.tally.championships : ℚ) / (simulations : ℚ)
        conference_finals_probability :=
          (r.tally.conference_finals : ℚ) / (simulations : ℚ)
        conference_semifinals_probability :=
          (r.tally.conference_semifinals : ℚ) / (simulations : ℚ)
        first_round_probability :=
          (r.tally.first_round : ℚ) / (simulations : ℚ)
        play_in_probability :=
          (r.tally.play_in : ℚ) / (simulations : ℚ)
        missed_playoffs_probability :=
          (r.tally.missed_playoffs : ℚ) / (simulations : ℚ)
        finals_appearances_probability :=
          (r.tally.finals_appearances : ℚ) / (simulations : ℚ) } }

/-- The count-to-probability conversion loop of
`_run_championship_simulations` (lines 96-100).  Each count is divided by
`simulations`; `none` models the `ZeroDivisionError` raised as soon as one
division with `simulations == 0` is executed (with no teams, no division
runs and no error is raised). -/
def convert_team_results (tr : TeamResults) (simulations : ℤ) :
    Option (List (ℤ × TeamResultP)) :=
  if simulations = 0 ∧ tr ≠ [] then none
  else some (tr.map fun e => (e.1, convert_team_result e.2 simulations))

/-- `_run_championship_simulations` (championship_calculator.py lines
68-102): `simulations` independent playoff samples tallied into counters,
then converted to empirical probabilities. -/
noncomputable def run_championship_simulations (ratings : Ratings) (rng : Rng)
    (standings : Standings) (simulations : ℤ) :
    Option (List (ℤ × TeamResultP)) :=
  match run_simulation_loop ratings rng standings 0 simulations.toNat with
  | none => none
  | some (tr, _) => convert_team_results tr simulations

/-! ### ChampionshipCalculator: output formatting -/

/-- One entry of `results['championship_odds']`
(championship_calculator.py lines 258-269). -/
structure ChampOddsEntry where
  team_id : ℤ
  team_name : String
  team_abbreviation : String
  conference : String
  rank : ℕ
  championship_probability : ℚ
  finals_probability : ℚ
  conference_finals_probability : ℚ
  playoff_probability : ℚ
deriving DecidableEq, Repr

/-- `_format_championship_odds` (championship_calculator.py lines 254-274):
one display entry per team, sorted descending by championship probability
(Python's stable `list.sort` with `reverse=True`). -/
def format_championship_odds (tr : List (ℤ × TeamResultP)) :
    List ChampOddsEntry :=
  let odds_list := tr.map fun e =>
    { team_id := e.1
      team_name := e.2.team_info.team_name
      team_abbreviation := e.2.team_info.team_abbreviation
      conference := e.2.conference
      rank := e.2.team_info.rank
      championship_probability := pyRound 4 e.2.probs.championships_probability
      finals_probability := pyRound 4 e.2.probs.finals_appearances_probability
      conference_finals_probability :=
        pyRound 4 e.2.probs.conference_finals_probability
      playoff_probability :=
        pyRound 4 (1 - e.2.probs.missed_playoffs_probability) : ChampOddsEntry }
  odds_list.mergeSort fun a b =>
    decide (b.championship_probability ≤ a.championship_probability)

/-- One entry of a conference list in `results['conference_odds']`
(championship_calculator.py lines 284-295). -/
structure ConfOddsEntry where
  team_id : ℤ
  team_name : String
  team_abbreviation : String
  rank : ℕ
  conference_championship_probability : ℚ
  playoff_probability : ℚ
deriving DecidableEq, Repr

/-- `_format_conference_odds` (championship_calculator.py lines 276-302):
per-conference display entries for the teams present in `team_results`,
each conference sorted descending by conference-championship probability;
`none` models the `KeyError` on a standings conference name outside
`{'Eastern', 'Western'}`. -/
def format_conference_odds (tr : List (ℤ × TeamResultP))
    (standings : Standings) : Option (ConfMap (List ConfOddsEntry)) :=
  standings.foldl
    (fun acc ct =>
      match acc with
      | none => none
      | some m =>
        if (m.lookup ct.1).isSome then
          let entries := ct.2.foldl
            (fun es team =>
              match tr.lookup team.team_id with
              | some r =>
                es ++ [{ team_id := team.team_id
                         team_name := team.team_name
                         team_abbreviation := team.team_abbreviation
                         rank := team.rank
                         conference_championship_probability :=
                           pyRound 4 r.probs.conference_finals_probability
                         playoff_probability :=
                           pyRound 4 (1 - r.probs.missed_playoffs_probability) :
                           ConfOddsEntry }]
              | none => es)
            []
          some (m.map fun e =>
            if e.1 = ct.1 then
              (e.1, (e.2 ++ entries).mergeSort fun a b =>
                decide (b.conference_championship_probability ≤
                  a.conference_championship_probability))
            else e)
        else none)
    (some [("Eastern", []), ("Western", [])])

/-- One entry of `results['round_probabilities']`
(championship_calculator.py lines 309-317). -/
structure RoundProbs where
  team_name : String
  make_playoffs : ℚ
  first_round : ℚ
  conference_semifinals : ℚ
  conference_finals : ℚ
  nba_finals : ℚ
  championship : ℚ
deriving DecidableEq, Repr

/-- `_calculate_round_probabilities` (championship_calculator.py lines
304-319). -/
def calculate_round_probabilities (tr : List (ℤ × TeamResultP)) :
    List (ℤ × RoundProbs) :=
  tr.map fun e =>
    (e.1,
      { team_name := e.2.team_info.team_name
        make_playoffs := pyRound 4 (1 - e.2.probs.missed_playoffs_probability)
        first_round := pyRound 4 e.2.probs.first_round_probability
        conference_semifinals :=
          pyRound 4 e.2.probs.conference_semifinals_probability
        conference_finals := pyRound 4 e.2.probs.conference_finals_probability
        nba_finals := pyRound 4 e.2.probs.finals_appearances_probability
        championship := pyRound 4 e.2.probs.championships_probability })

/-- The `most_likely_champion` summary record
(championship_calculator.py lines 335-339). -/
structure MostLikelyChampion where
  team_id : ℤ
  team_name : String
  probability : ℚ
deriving DecidableEq, Repr

/-- `_analyze_playoff_scenarios` (championship_calculator.py lines
321-346); the `most_likely_finals`, `upset_potential` and
`conference_balance` keys are always left empty by the source and are not
modelled. -/
structure Scenarios where
  most_likely_champion : Option MostLikelyChampion
deriving DecidableEq, Repr

def analyze_playoff_scenarios (tr : List (ℤ × TeamResultP)) : Scenarios :=
  let best := tr.foldl
    (fun acc e =>
      if acc.1 < e.2.probs.championships_probability then
        (e.2.probs.championships_probability,
          some { team_id := e.1
                 team_name := e.2.team_info.team_name
                 probability := pyRound 4 e.2.probs.championships_probability :
                 MostLikelyChampion })
      else acc)
    ((0 : ℚ), (none : Option MostLikelyChampion))
  { most_likely_champion := best.2 }

/-- The comprehensive-odds result dict (championship_calculator.py lines
43-50; the `last_updated` timestamp is not modelled).  The always-empty
default `playoff_scenarios` dict of `_get_default_odds` is modelled as
`none`. -/
structure Odds where
  simulations_run : ℤ
  championship_odds : List ChampOddsEntry
  conference_odds : ConfMap (List ConfOddsEntry)
  round_probabilities : List (ℤ × RoundProbs)
  playoff_scenarios : Option Scenarios
deriving DecidableEq, Repr

/-- `_get_default_odds` (championship_calculator.py lines 348-357). -/
def get_default_odds : Odds :=
  { simulations_run := 0
    championship_odds := []
    conference_odds := [("Eastern", []), ("Western", [])]
    round_probabilities := []
    playoff_scenarios := none }

/-- `calculate_comprehensive_odds` (championship_calculator.py lines
27-66), for an explicitly supplied standings dict.  Any exception raised
inside the `try` block (modelled `none`) yields `_get_default_odds`. -/
noncomputable def calculate_comprehensive_odds (ratings : Ratings) (rng : Rng)
    (standings : Standings) (simulations : ℤ) : Odds :=
  match run_championship_simulations ratings rng standings simulations with
  | none => get_default_odds
  | some team_results =>
    match format_conference_odds team_results standings with
    | none => get_default_odds
    | some conf_odds =>
      { simulations_run := simulations
        championship_odds := format_championship_odds team_results
        conference_odds := conf_odds
        round_probabilities := calculate_round_probabilities team_results
        playoff_scenarios := some (analyze_playoff_scenarios team_results) }

/-! ### PlayoffPredictor: series prediction (playoff_predictor.py) -/

/-- The game loop of `_simulate_single_series` (playoff_predictor.py lines
340-344): sequential Bernoulli games at the fixed per-game probability
until one side reaches `games_needed` wins. -/
noncomputable def simulate_single_series_loop (rng : Rng) (team1_win_prob : ℝ)
    (games_needed team1_wins team2_wins : ℤ) (pos : ℕ) : ℤ × ℤ × ℕ :=
  if team1_wins < games_needed ∧ team2_wins < games_needed then
    if ((rng pos : ℚ) : ℝ) < team1_win_prob then
      simulate_single_series_loop rng team1_win_prob games_needed
        (team1_wins + 1) team2_wins (pos + 1)
    else
      simulate_single_series_loop rng team1_win_prob games_needed
        team1_wins (team2_wins + 1) (pos + 1)
  else (team1_wins, team2_wins, pos)
termination_by (2 * games_needed - (team1_wins + team2_wins)).toNat
decreasing_by all_goals omega

/-- `_simulate_single_series` (playoff_predictor.py lines 334-346);
`games_needed = series_length // 2 + 1` with Python floor division. -/
noncomputable def simulate_single_series (rng : Rng) (team1_win_prob : ℝ)
    (series_length : ℤ) (pos : ℕ) : ℤ × ℤ × ℕ :=
  let games_needed := series_length.fdiv 2 + 1
  simulate_single_series_loop rng team1_win_prob games_needed 0 0 pos

/-- `_predict_series_length` (playoff_predictor.py lines 348-355): the
discretised mapping from `stronger_team_prob` (the probability the source
passes, see `_predict_series` line 321) to a `random.choice` between two
plausible lengths. -/
noncomputable def predict_series_length (stronger_team_prob : ℝ) (u : ℚ) : ℤ :=
  if (0.7 : ℝ) ≤ stronger_team_prob then choice2 4 5 u
  else if (0.6 : ℝ) ≤ stronger_team_prob then choice2 5 6 u
  else choice2 6 7 u

/-- The series-prediction dict of `_predict_series`
(playoff_predictor.py lines 316-322). -/
structure SeriesPrediction where
  team1_series_probability : ℚ
  team2_series_probability : ℚ
  predicted_winner : SeedEntry
  confidence : ℚ
  predicted_games : ℤ
deriving DecidableEq, Repr

/-- `_predict_series` (playoff_predictor.py lines 289-332): 1000 simulated
best-of-`series_length` series at the oracle per-game probability; the
winner is the side with empirical series probability above 0.5, and the
predicted length is `_predict_series_length` applied to team1's per-game
probability. -/
noncomputable def predict_series (ratings : Ratings) (rng : Rng)
    (team1 team2 : SeedEntry) (series_length : ℤ) (pos : ℕ) :
    SeriesPrediction × ℕ :=
  let team1_game_win_prob :=
    winProbability (ratings team1.team_id) (ratings team2.team_id)
  let simulations : ℕ := 1000
  let r := (List.range simulations).foldl
    (fun acc _ =>
      let s := simulate_single_series rng team1_game_win_prob series_length acc.2.2
      if s.2.1 < s.1 then (acc.1 + 1, acc.2.1, s.2.2)
      else (acc.1, acc.2.1 + 1, s.2.2))
    ((0 : ℕ), (0 : ℕ), pos)
  let team1_series_prob : ℚ := (r.1 : ℚ) / (simulations : ℚ)
  ({ team1_series_probability := pyRound 3 team1_series_prob
     team2_series_probability := pyRound 3 (1 - team1_series_prob)
     predicted_winner := if 1 / 2 < team1_series_prob then team1 else team2
     confidence := pyRound 3 (max team1_series_prob (1 - team1_series_prob))
     predicted_games := predict_series_length team1_game_win_prob (rng r.2.2) },
   r.2.2 + 1)

/-! ### PlayoffPredictor: bracket construction -/

/-- One game record of `_create_play_in_tournament`
(playoff_predictor.py lines 242-251). -/
structure PlayInGame where
  matchup : String
  teams : List SeedEntry
  description : String
deriving DecidableEq, Repr

/-- The two play-in games listed for one conference. -/
structure PlayInConf where
  game_1 : PlayInGame
  game_2 : PlayInGame
deriving DecidableEq, Repr

/-- `_create_play_in_tournament` (playoff_predictor.py lines 232-254):
lists the two play-in matchups on seeds 7-10 of each conference.  It only
describes the games; no winner is computed. -/
def create_play_in_tournament (standings : Standings) :
    ConfMap (Option PlayInConf) :=
  standings.foldl
    (fun m ct =>
      let play_in_teams := (ct.2.drop 6).take 4
      match play_in_teams with
      | p0 :: p1 :: p2 :: p3 :: _ =>
        upsertConf m ct.1 (some
          { game_1 :=
              { matchup := p0.team_abbreviation ++ " vs " ++ p1.team_abbreviation
                teams := [p0, p1]
                description := "7th seed vs 8th seed (winner gets 7th seed)" }
            game_2 :=
              { matchup := p2.team_abbreviation ++ " vs " ++ p3.team_abbreviation
                teams := [p2, p3]
                description := "9th seed vs 10th seed (winner plays loser of Game 1)" } })
      | _ => m)
    [("Eastern", none), ("Western", none)]

/-- One matchup record of `_create_first_round`
(playoff_predictor.py lines 280-285). -/
structure FirstRoundMatchup where
  matchup : String
  higher_seed : SeedEntry
  lower_seed : SeedEntry
  series_prediction : SeriesPrediction
deriving DecidableEq, Repr

/-- `_create_first_round` (playoff_predictor.py lines 256-287): the
playoff field is seeds 1-6 plus `teams[6:8]` (the source comment reads
"assume 7th and 8th seeds for now"), paired 1v8, 2v7, 3v6, 4v5; `none`
models the `KeyError` on a conference name outside the initial dict. -/
noncomputable def create_first_round (ratings : Ratings) (rng : Rng)
    (standings : Standings) (pos : ℕ) :
    Option (ConfMap (List FirstRoundMatchup) × ℕ) :=
  standings.foldl
    (fun acc ct =>
      match acc with
      | none => none
      | some (m, p) =>
        let teams := ct.2
        let playoff_teams :=
          teams.take 6 ++ (if 8 ≤ teams.length then (teams.drop 6).take 2 else [])
        match playoff_teams with
        | t0 :: t1 :: t2 :: t3 :: t4 :: t5 :: t6 :: t7 :: _ =>
          let matchups := [(t0, t7), (t1, t6), (t2, t5), (t3, t4)]
          let r := matchups.foldl
            (fun a mu =>
              let sp := predict_series ratings rng mu.1 mu.2 7 a.2
              (a.1 ++
                [{ matchup :=
                     mu.1.team_abbreviation ++ " vs " ++ mu.2.team_abbreviation
                   higher_seed := mu.1
                   lower_seed := mu.2
                   series_prediction := sp.1 : FirstRoundMatchup }], sp.2))
            (([] : List FirstRoundMatchup), p)
          (appendConf m ct.1 r.1).map fun m' => (m', r.2)
        | _ => some (m, p))
    (some ([("Eastern", []), ("Western", [])], pos))

/-- One matchup record of `_create_conference_semifinals`
(playoff_predictor.py lines 399-404). -/
structure SemiMatchup where
  matchup : String
  team1 : SeedEntry
  team2 : SeedEntry
  series_prediction : SeriesPrediction
deriving DecidableEq, Repr

/-- `_create_conference_semifinals` (playoff_predictor.py lines 377-406):
first-round winners re-paired (1v8 winner vs 4v5 winner, 2v7 winner vs
3v6 winner). -/
noncomputable def create_conference_semifinals (ratings : Ratings) (rng : Rng)
    (first_round : ConfMap (List FirstRoundMatchup)) (pos : ℕ) :
    Option (ConfMap (List SemiMatchup) × ℕ) :=
  first_round.foldl
    (fun acc ct =>
      match acc with
      | none => none
      | some (m, p) =>
        let winners := ct.2.map fun mu => mu.series_prediction.predicted_winner
        match winners with
        | w0 :: w1 :: w2 :: w3 :: _ =>
          let semifinal_matchups := [(w0, w3), (w1, w2)]
          let r := semifinal_matchups.foldl
            (fun a mu =>
              let sp := predict_series ratings rng mu.1 mu.2 7 a.2
              (a.1 ++
                [{ matchup :=
                     mu.1.team_abbreviation ++ " vs " ++ mu.2.team_abbreviation
                   team1 := mu.1
                   team2 := mu.2
                   series_prediction := sp.1 : SemiMatchup }], sp.2))
            (([] : List SemiMatchup), p)
          (appendConf m ct.1 r.1).map fun m' => (m', r.2)
        | _ => some (m, p))
    (some ([("Eastern", []), ("Western", [])], pos))

/-- The conference-finals record of `_create_conference_finals`
(playoff_predictor.py lines 420-425). -/
structure ConfFinalMatchup where
  matchup : String
  team1 : SeedEntry
  team2 : SeedEntry
  series_prediction : SeriesPrediction
deriving DecidableEq, Repr

/-- `_create_conference_finals` (playoff_predictor.py lines 408-427);
dict assignment cannot raise, so this is total. -/
noncomputable def create_conference_finals (ratings : Ratings) (rng : Rng)
    (conference_semifinals : ConfMap (List SemiMatchup)) (pos : ℕ) :
    ConfMap (Option ConfFinalMatchup) × ℕ :=
  conference_semifinals.foldl
    (fun acc ct =>
      match ct.2 with
      | m0 :: m1 :: _ =>
        let winner1 := m0.series_prediction.predicted_winner
        let winner2 := m1.series_prediction.predicted_winner
        let sp := predict_series ratings rng winner1 winner2 7 acc.2
        (upsertConf acc.1 ct.1 (some
          { matchup :=
              winner1.team_abbreviation ++ " vs " ++ winner2.team_abbreviation
            team1 := winner1
            team2 := winner2
            series_prediction := sp.1 }), sp.2)
      | _ => acc)
    (([("Eastern", none), ("Western", none)], pos) :
      ConfMap (Option ConfFinalMatchup) × ℕ)

/-- The NBA-finals record of `_create_nba_finals`
(playoff_predictor.py lines 438-443). -/
structure NbaFinalsMatchup where
  matchup : String
  eastern_champion : SeedEntry
  western_champion : SeedEntry
  series_prediction : SeriesPrediction
deriving DecidableEq, Repr

/-- `_create_nba_finals` (playoff_predictor.py lines 429-445): returns the
finals matchup when both conference champions exist, an empty record
(modelled `none`) otherwise. -/
noncomputable def create_nba_finals (ratings : Ratings) (rng : Rng)
    (conference_finals : ConfMap (Option ConfFinalMatchup)) (pos : ℕ) :
    Option NbaFinalsMatchup × ℕ :=
  match conference_finals.lookup "Eastern", conference_finals.lookup "Western" with
  | some (some east), some (some west) =>
    let eastern_champion := east.series_prediction.predicted_winner
    let western_champion := west.series_prediction.predicted_winner
    let sp := predict_series ratings rng eastern_champion western_champion 7 pos
    (some
      { matchup := eastern_champion.team_abbreviation ++ " vs " ++
          western_champion.team_abbreviation
        eastern_champion := eastern_champion
        western_champion := western_champion
        series_prediction := sp.1 }, sp.2)
  | _, _ => (none, pos)

/-- One entry of `_calculate_bracket_championship_odds`
(playoff_predictor.py lines 362-370). -/
structure BracketOddsEntry where
  team_id : ℤ
  team_name : String
  team_abbreviation : String
  conference : String
  championship_odds : ℚ
  conference_odds : ℚ
deriving DecidableEq, Repr

/-- `_calculate_bracket_championship_odds` (playoff_predictor.py lines
357-375); `none` models the `KeyError` of `standings['Eastern']`. -/
def calculate_bracket_championship_odds (standings : Standings) :
    Option (List BracketOddsEntry) :=
  match standings.lookup "Eastern" with
  | none => none
  | some eastern =>
    let all_teams := standings.foldl
      (fun l ct =>
        l ++ ct.2.map fun team =>
          { team_id := team.team_id
            team_name := team.team_name
            team_abbreviation := team.team_abbreviation
            conference := if team ∈ eastern then "Eastern" else "Western"
            championship_odds := team.championship_odds
            conference_odds :=
              if team.rank ≤ 8 then team.playoff_probability * (1 / 2) else 0 :
            BracketOddsEntry })
      []
    some (all_teams.mergeSort fun a b =>
      decide (b.championship_odds ≤ a.championship_odds))

/-- The full bracket dict assembled by `generate_playoff_bracket`
(playoff_predictor.py lines 215-223; `generated_at` is not modelled). -/
structure PlayoffBracket where
  play_in : ConfMap (Option PlayInConf)
  first_round : ConfMap (List FirstRoundMatchup)
  conference_semifinals : ConfMap (List SemiMatchup)
  conference_finals : ConfMap (Option ConfFinalMatchup)
  nba_finals : Option NbaFinalsMatchup
  championship_odds : List BracketOddsEntry
deriving DecidableEq, Repr

/-- `_get_default_bracket` (playoff_predictor.py lines 462-472). -/
def get_default_bracket : PlayoffBracket :=
  { play_in := [("Eastern", none), ("Western", none)]
    first_round := [("Eastern", []), ("Western", [])]
    conference_semifinals := []
    conference_finals := []
    nba_finals := none
    championship_odds := [] }

/-- `generate_playoff_bracket` (playoff_predictor.py lines 193-230), for an
explicitly supplied standings dict: the bracket constructor.  Rounds are
generated in sequence, each from the previous round's predicted winners;
any modelled exception yields `_get_default_bracket`. -/
noncomputable def generate_playoff_bracket (ratings : Ratings) (rng : Rng)
    (standings : Standings) (pos : ℕ) : PlayoffBracket :=
  let play_in := create_play_in_tournament standings
  match create_first_round ratings rng standings pos with
  | none => get_default_bracket
  | some (first_round, p1) =>
    match create_conference_semifinals ratings rng first_round p1 with
    | none => get_default_bracket
    | some (conference_semifinals, p2) =>
      let cf := create_conference_finals ratings rng conference_semifinals p2
      let nba := create_nba_finals ratings rng cf.1 cf.2
      match calculate_bracket_championship_odds standings with
      | none => get_default_bracket
      | some odds =>
        { play_in := play_in
          first_round := first_round
          conference_semifinals := conference_semifinals
          conference_finals := cf.1
          nba_finals := nba.1
          championship_odds := odds }

/-! ### PlayoffPredictor: season-standings simulation -/

/-- `_simulate_team_season` (playoff_predictor.py lines 146-165): 3 games
against every other conference team, each a Bernoulli draw at the oracle
probability; returns the win count. -/
noncomputable def simulate_team_season (ratings : Ratings) (rng : Rng)
    (team_id : ℤ) (team_rating : ℚ) (conference_teams : List ℤ) (pos : ℕ) :
    ℕ × ℕ :=
  let games_per_team : ℕ := 3
  conference_teams.foldl
    (fun acc opponent_id =>
      if opponent_id = team_id then acc
      else
        (List.range games_per_team).foldl
          (fun acc2 _ =>
            let win_prob := winProbability team_rating (ratings opponent_id)
            if ((rng acc2.2 : ℚ) : ℝ) < win_prob then (acc2.1 + 1, acc2.2 + 1)
            else (acc2.1, acc2.2 + 1))
          acc)
    ((0 : ℕ), pos)

/-- `_calculate_playoff_probability` (playoff_predictor.py lines 167-183):
the step function from win percentage to a bucketed playoff probability. -/
def calculate_playoff_probability (projected_wins total_games : ℚ) : ℚ :=
  let win_percentage := projected_wins / total_games
  if 6 / 10 ≤ win_percentage then 95 / 100
  else if 55 / 100 ≤ win_percentage then 80 / 100
  else if 50 / 100 ≤ win_percentage then 60 / 100
  else if 45 / 100 ≤ win_percentage then 30 / 100
  else if 40 / 100 ≤ win_percentage then 10 / 100
  else 5 / 100

/-- `_calculate_championship_odds` (playoff_predictor.py lines 185-191). -/
def calculate_championship_odds (team_rating : ℚ) : ℚ :=
  let normalized_rating := max 0 (min 1 ((team_rating - 1400) / 300))
  1 / 1000 + normalized_rating * (249 / 1000)

/-- The per-team stats dict built by `_simulate_conference_season`
(playoff_predictor.py lines 136-142). -/
structure TeamStats where
  projected_wins : ℚ
  projected_losses : ℚ
  win_percentage : ℚ
  playoff_probability : ℚ
  championship_odds : ℚ
deriving DecidableEq, Repr

/-- The loop body of `_simulate_conference_season` for one team
(playoff_predictor.py lines 115-142). -/
noncomputable def conference_season_step (ratings : Ratings) (rng : Rng)
    (teams : List ℤ) (simulations : ℤ)
    (acc : Option (List (ℤ × TeamStats) × ℕ)) (team_id : ℤ) :
    Option (List (ℤ × TeamStats) × ℕ) :=
  match acc with
  | none => none
  | some (team_stats, p) =>
    let team_rating := ratings team_id
    let total_games : ℚ := 82
    let r := (List.range simulations.toNat).foldl
      (fun a _ =>
        let w := simulate_team_season ratings rng team_id team_rating teams a.2
        (a.1 + w.1, w.2))
      ((0 : ℕ), p)
    if simulations = 0 then none
    else
      let avg_wins : ℚ := (r.1 : ℚ) / (simulations : ℚ)
      let avg_losses := total_games - avg_wins
      some (team_stats ++
        [(team_id,
          { projected_wins := pyRound 1 avg_wins
            projected_losses := pyRound 1 avg_losses
            win_percentage := pyRound 3 (avg_wins / total_games)
            playoff_probability :=
              pyRound 3 (calculate_playoff_probability avg_wins total_games)
            championship_odds :=
              pyRound 4 (calculate_championship_odds team_rating) })], r.2)

/-- `_simulate_conference_season` (playoff_predictor.py lines 111-144):
`simulations` sampled seasons per team, averaged; `none` models the
`ZeroDivisionError` of `total_wins / simulations` when `simulations == 0`
and at least one team's division is executed. -/
noncomputable def simulate_conference_season (ratings : Ratings) (rng : Rng)
    (teams : List ℤ) (simulations : ℤ) (pos : ℕ) :
    Option (List (ℤ × TeamStats) × ℕ) :=
  teams.foldl (conference_season_step ratings rng teams simulations)
    (some ([], pos))

/-- Python's `enumerate(xs, n)`. -/
def enumerateFrom {α : Type} (n : ℕ) : List α → List (ℕ × α)
  | [] => []
  | a :: rest => (n, a) :: enumerateFrom (n + 1) rest

/-- `_get_default_standings` (playoff_predictor.py lines 447-460).  (The
source's default entries carry no `team_name` / `team_abbreviation` keys;
they are modelled as empty strings.) -/
def get_default_standings (conference_teams : List (String × List ℤ)) :
    Standings :=
  conference_teams.map fun ct =>
    (ct.1, (enumerateFrom 1 ct.2).map fun e =>
      { rank := e.1
        team_id := e.2
        team_name := ""
        team_abbreviation := ""
        projected_wins := 45
        projected_losses := 37
        win_percentage := 549 / 1000
        playoff_probability := 6 / 10
        championship_odds := 33 / 1000 })

/-- `simulate_season_standings` (playoff_predictor.py lines 68-109):
per conference, simulate every team's season, sort descending by projected
wins (Python's stable `sorted` with `reverse=True`) and assign ranks
`1..N` by `enumerate(..., 1)`.  The team name/abbreviation lookups of the
external prediction service are injected as `team_name` / `team_abbr`.
Any modelled exception yields `_get_default_standings`. -/
noncomputable def simulate_season_standings (ratings : Ratings) (rng : Rng)
    (team_name team_abbr : ℤ → String)
    (conference_teams : List (String × List ℤ)) (simulations : ℤ) (pos : ℕ) :
    Standings :=
  let run : Option Standings :=
    (conference_teams.foldl
      (fun acc ct =>
        match acc with
        | none => none
        | some (results, p) =>
          match simulate_conference_season ratings rng ct.2 simulations p with
          | none => none
          | some (team_stats, p') =>
            let sorted_teams := team_stats.mergeSort fun a b =>
              decide (b.2.projected_wins ≤ a.2.projected_wins)
            let entries := (enumerateFrom 1 sorted_teams).map fun re =>
              { rank := re.1
                team_id := re.2.1
                team_name := team_name re.2.1
                team_abbreviation := team_abbr re.2.1
                projected_wins := re.2.2.projected_wins
                projected_losses := re.2.2.projected_losses
                win_percentage := re.2.2.win_percentage
                playoff_probability := re.2.2.playoff_probability
                championship_odds := re.2.2.championship_odds : SeedEntry }
            match appendConf results ct.1 entries with
            | none => none
            | some results' => some (results', p'))
      (some ([("Eastern", []), ("Western", [])], pos))).map (·.1)
  match run with
  | none => get_default_standings conference_teams
  | some results => results

/-! ### Concrete fixtures for evaluation -/

/-- The ratings map of an empty `team_ratings` dict: every lookup falls
back to the neutral default 1500. -/
def constRatings : Ratings := fun _ => 1500

/-- A standings entry carrying only a rank and a team id. -/
def mkSeed (r : ℕ) (id : ℤ) : SeedEntry :=
  { rank := r
    team_id := id
    team_name := ""
    team_abbreviation := ""
    projected_wins := 0
    projected_losses := 0
    win_percentage := 0
    playoff_probability := 0
    championship_odds := 0 }

/-- Eight Eastern seeds, ids 1-8. -/
def E8 : List SeedEntry :=
  [mkSeed 1 1, mkSeed 2 2, mkSeed 3 3, mkSeed 4 4,
   mkSeed 5 5, mkSeed 6 6, mkSeed 7 7, mkSeed 8 8]

/-- Eight Western seeds, ids 11-18. -/
def W8 : List SeedEntry :=
  [mkSeed 1 11, mkSeed 2 12, mkSeed 3 13, mkSeed 4 14,
   mkSeed 5 15, mkSeed 6 16, mkSeed 7 17, mkSeed 8 18]

/-- A two-conference standings dict with 8 teams per conference. -/
def std3 : Standings := [("Eastern", E8), ("Western", W8)]

/-- Ten Eastern seeds, ids 1-10. -/
def ts10 : List SeedEntry := E8 ++ [mkSeed 9 9, mkSeed 10 10]

/-- A two-conference standings dict with 10 teams per conference. -/
def std10 : Standings := [("Eastern", ts10), ("Western", ts10)]

/-- Draw stream constantly 1/4: below every threshold used here, so the
first-listed team wins every simulated game. -/
def rng14 : Rng := fun _ => 1 / 4

/-- Draw stream constantly 0.52: between the oracle probability 0.5 and
the boosted threshold 0.55 of an equal-ratings matchup. -/
def rng52 : Rng := fun _ => 13 / 25

/-- Draw stream whose third draw (position 2) is 0.9 and all others 1/4:
in the play-in on equal-rated seeds 7-10, seed 7 wins game 1, seed 9 wins
game 2, and seed 9 then beats seed 8 for the eighth seed. -/
def rngC2 : Rng := fun pos => if pos = 2 then 9 / 10 else 1 / 4

/-- Ratings map with team 1 rated 1100 and everyone else 1500. -/
def ratingsC5 : Ratings := fun id => if id = 1 then 1100 else 1500

/-! ### Helper lemmas about the oracle formula -/

theorem rpow_pos_ten (x : ℝ) : 0 < (10 : ℝ) ^ x :=
  Real.rpow_pos_of_pos (by norm_num) x

theorem winProbability_pos (a b : ℚ) : 0 < winProbability a b := by
  unfold winProbability
  have h := rpow_pos_ten ((((b - a) : ℚ) : ℝ) / 400)
  positivity

theorem winProbability_add_symm (a b : ℚ) :
    winProbability a b + winProbability b a = 1 := by
  unfold winProbability
  have h1 : ((((a - b) : ℚ) : ℝ) / 400) = -((((b - a) : ℚ) : ℝ) / 400) := by
    push_cast
    ring
  rw [h1, Real.rpow_neg (by norm_num : (0:ℝ) ≤ 10)]
  set t : ℝ := (10 : ℝ) ^ ((((b - a) : ℚ) : ℝ) / 400) with ht
  have htpos : 0 < t := rpow_pos_ten _
  have h2 : (1 : ℝ) + t ≠ 0 := by positivity
  have h3 : (1 : ℝ) + t⁻¹ ≠ 0 := by positivity
  field_simp
  ring

theorem winProbability_self (a : ℚ) : winProbability a a = 1 / 2 := by
  unfold winProbability
  norm_num

/-- At equal ratings the boosted head-to-head threshold
`min(0.95, p * 1.1)` of the championship calculator is 0.55. -/
theorem boosted_threshold_self (a : ℚ) :
    min (0.95 : ℝ) (winProbability a a * 1.1) = 11 / 20 := by
  rw [winProbability_self]
  norm_num

/-! ### Evaluation helpers for the head-to-head game -/

theorem ratCast_lt_ratCast (u v : ℚ) : ((u : ℝ) < (v : ℝ)) ↔ u < v :=
  Rat.cast_lt

/-- With all ratings equal to 1500, a head-to-head game reduces to a
rational comparison of the draw with the boosted threshold 0.55. -/
theorem h2h_const (rng : Rng) (t1 t2 : SeedEntry) (pos : ℕ) :
    simulate_head_to_head constRatings rng t1 t2 pos =
      (if rng pos < (11 / 20 : ℚ) then t1 else t2, pos + 1) := by
  unfold simulate_head_to_head constRatings
  dsimp only
  rw [boosted_threshold_self 1500]
  have hcast : (((rng pos : ℚ) : ℝ) < 11 / 20) ↔ rng pos < 11 / 20 := by
    rw [show ((11 : ℝ) / 20) = (((11 / 20 : ℚ)) : ℝ) by norm_num]
    exact ratCast_lt_ratCast _ _
  by_cases h : rng pos < (11 / 20 : ℚ)
  · rw [if_pos (hcast.mpr h), if_pos h]
  · rw [if_neg (fun hc => h (hcast.mp hc)), if_neg h]

theorem h2h_14 (t1 t2 : SeedEntry) (pos : ℕ) :
    simulate_head_to_head constRatings rng14 t1 t2 pos = (t1, pos + 1) := by
  rw [h2h_const]
  norm_num [rng14]

/-! ### Evaluation of one conference playoff under `rng14` -/

theorem fill8 (t1 t2 t3 t4 t5 t6 t7 t8 : SeedEntry) :
    fill_playoff_teams [t1, t2, t3, t4, t5, t6, t7, t8] [t1, t2, t3, t4, t5, t6] =
      [t1, t2, t3, t4, t5, t6, t7, t8] := by
  rw [fill_playoff_teams]
  norm_num
  rw [fill_playoff_teams]
  norm_num
  rw [fill_playoff_teams]
  norm_num

theorem round_first_14 (t1 t2 t3 t4 t5 t6 t7 t8 : SeedEntry) (pos : ℕ) :
    simulate_playoff_round constRatings rng14 [t1, t2, t3, t4, t5, t6, t7, t8]
      "first_round" pos = some ([t1, t2, t3, t4], pos + 4) := by
  unfold simulate_playoff_round
  simp [h2h_14]

theorem round_semis_14 (t1 t2 t3 t4 : SeedEntry) (pos : ℕ) :
    simulate_playoff_round constRatings rng14 [t1, t2, t3, t4]
      "semifinals" pos = some ([t1, t3], pos + 2) := by
  unfold simulate_playoff_round
  simp [h2h_14, pairSequential]

theorem round_finals2_14 (t1 t2 : SeedEntry) (pos : ℕ) :
    simulate_playoff_round constRatings rng14 [t1, t2]
      "finals" pos = some ([t1], pos + 1) := by
  unfold simulate_playoff_round
  simp [h2h_14, pairSequential]

theorem conf8_14 (t1 t2 t3 t4 t5 t6 t7 t8 : SeedEntry) (pos : ℕ) :
    simulate_conference_playoffs constRatings rng14
        [t1, t2, t3, t4, t5, t6, t7, t8] pos =
      some (t1,
        { play_in := []
          first_round := [t1.team_id, t2.team_id, t3.team_id, t4.team_id]
          conference_semifinals := [t1.team_id, t3.team_id]
          conference_finals := [t1.team_id] }, pos + 7) := by
  unfold simulate_conference_playoffs
  norm_num
  rw [fill8, round_first_14]
  dsimp only
  rw [round_semis_14]
  dsimp only
  norm_num
  rw [round_finals2_14]

/-- The full playoff sample of `std3` under `rng14`: the top seed of each
conference wins every series, and the Eastern champion (listed first) wins
the finals. -/
theorem single_14 (pos : ℕ) :
    simulate_single_playoff constRatings rng14 std3 pos =
      some ({ champion := some (mkSeed 1 1)
              finals_teams := [mkSeed 1 1, mkSeed 1 11]
              conference_champions :=
                [("Eastern", some (mkSeed 1 1)), ("Western", some (mkSeed 1 11))]
              play_in := [("Eastern", []), ("Western", [])]
              first_round :=
                [("Eastern", [1, 2, 3, 4]), ("Western", [11, 12, 13, 14])]
              conference_semifinals :=
                [("Eastern", [1, 3]), ("Western", [11, 13])]
              conference_finals := [("Eastern", [1]), ("Western", [11])] },
        pos + 15) := by
  unfold simulate_single_playoff
  simp only [std3, E8, W8, List.foldl_cons, List.foldl_nil, conf8_14, h2h_14,
    appendConf, upsertConf, List.lookup, mkSeed]
  norm_num [simulate_finals, h2h_14, mkSeed]
  refine ⟨_, _, rfl, ?_⟩
  norm_num
  decide

/-- Looking up a key after the probability-conversion map is looking up
before it and converting the found entry. -/
theorem lookup_convert (sims : ℤ) :
    ∀ (tr : TeamResults) (k : ℤ),
      (tr.map (fun e => (e.1, convert_team_result e.2 sims))).lookup k =
        (tr.lookup k).map (fun r => convert_team_result r sims)
  | [], _ => rfl
  | e :: t, k => by
    by_cases h : k == e.1
    · simp [List.lookup, h]
    · simp only [List.map_cons, List.lookup, h]
      exact lookup_convert sims t k

/-- C3 (code bug): with standings `std3`, a single simulation under
`rng14`, and all ratings equal, the aggregated per-round values of the
champion (team 1) are `conference_finals_probability = 2.0` but
`conference_semifinals_probability = 1.0`: the conference champion's
`conference_finals` counter is incremented twice per simulation (once from
`round_results['conference_finals']` and once from the
conference-champion tracking in `_update_team_results`), so the claimed
chain `conference_finals_probability ≤ conference_semifinals_probability`
fails and the value is not even a probability. -/
theorem C3_conference_finals_exceeds_semifinals :
    (run_championship_simulations constRatings rng14 std3 1).map
        (fun tr => (tr.lookup 1).map fun t =>
          (t.probs.conference_finals_probability,
           t.probs.conference_semifinals_probability)) =
      some (some (2, 1)) ∧
    ¬ ((2 : ℚ) ≤ 1) := by
  constructor
  · have hloop : run_simulation_loop constRatings rng14 std3 0 1 =
        some (update_team_results (init_team_results std3)
          { champion := some (mkSeed 1 1)
            finals_teams := [mkSeed 1 1, mkSeed 1 11]
            conference_champions :=
              [("Eastern", some (mkSeed 1 1)), ("Western", some (mkSeed 1 11))]
            play_in := [("Eastern", []), ("Western", [])]
            first_round := [("Eastern", [1, 2, 3, 4]), ("Western", [11, 12, 13, 14])]
            conference_semifinals := [("Eastern", [1, 3]), ("Western", [11, 13])]
            conference_finals := [("Eastern", [1]), ("Western", [11])] }, 15) := by
      simp [run_simulation_loop, single_14]
    have hkey : (update_team_results (init_team_results std3)
          { champion := some (mkSeed 1 1)
            finals_teams := [mkSeed 1 1, mkSeed 1 11]
            conference_champions :=
              [("Eastern", some (mkSeed 1 1)), ("Western", some (mkSeed 1 11))]
            play_in := [("Eastern", []), ("Western", [])]
            first_round := [("Eastern", [1, 2, 3, 4]), ("Western", [11, 12, 13, 14])]
            conference_semifinals := [("Eastern", [1, 3]), ("Western", [11, 13])]
            conference_finals := [("Eastern", [1]), ("Western", [11])] }).lookup 1 =
        some { team_info := mkSeed 1 1, conference := "Eastern",
               tally := ⟨1, 2, 1, 1, 0, 0, 1⟩ } := rfl
    unfold run_championship_simulations
    rw [show (1 : ℤ).toNat = 1 from rfl, hloop]
    dsimp only
    unfold convert_team_results
    rw [if_neg (by simp)]
    simp only [Option.map_some', lookup_convert, hkey]
    norm_num [convert_team_result]
  · norm_num

/-! ### The missed-playoffs counter is never incremented (C9 support) -/

theorem foldl_preserve {α β : Type} (P : β → Prop) (g : β → α → β)
    (h : ∀ b a, P b → P (g b a)) :
    ∀ (l : List α) (b : β), P b → P (l.foldl g b)
  | [], _, hb => hb
  | a :: l, b, hb => foldl_preserve P g h l (g b a) (h b a hb)

theorem lookup_mem {β : Type} :
    ∀ (l : List (ℤ × β)) (k : ℤ) (b : β),
      l.lookup k = some b → ∃ a, (a, b) ∈ l := by
  intro l
  induction l with
  | nil => intro k b h; simp [List.lookup] at h
  | cons e t ih =>
    intro k b h
    cases hk : (k == e.1) with
    | true =>
      simp only [List.lookup, hk] at h
      exact ⟨e.1, by rw [← Option.some_inj.mp h]; exact List.mem_cons_self e t⟩
    | false =>
      simp only [List.lookup, hk] at h
      obtain ⟨a, ha⟩ := ih k b h
      exact ⟨a, List.mem_cons_of_mem _ ha⟩

theorem upsert_missed (tr : TeamResults) (id : ℤ) (r : TeamResult)
    (h : ∀ e ∈ tr, e.2.tally.missed_playoffs = 0)
    (hr : r.tally.missed_playoffs = 0) :
    ∀ e ∈ upsertResult tr id r, e.2.tally.missed_playoffs = 0 := by
  intro e he
  unfold upsertResult at he
  by_cases hc : (tr.lookup id).isSome
  · rw [if_pos hc] at he
    obtain ⟨x, hx, hxe⟩ := List.mem_map.mp he
    by_cases hid : x.1 = id
    · rw [if_pos hid] at hxe
      rw [← hxe]
      exact hr
    · rw [if_neg hid] at hxe
      rw [← hxe]
      exact h x hx
  · rw [if_neg hc] at he
    rcases List.mem_append.mp he with hL | hR
    · exact h e hL
    · simp at hR
      rw [hR]
      exact hr

theorem init_missed (standings : Standings) :
    ∀ e ∈ init_team_results standings, e.2.tally.missed_playoffs = 0 := by
  unfold init_team_results
  apply foldl_preserve
    (fun tr : TeamResults => ∀ e ∈ tr, e.2.tally.missed_playoffs = 0)
  · intro tr ct h
    apply foldl_preserve
      (fun tr : TeamResults => ∀ e ∈ tr, e.2.tally.missed_playoffs = 0)
    · intro tr team h
      exact upsert_missed tr team.team_id _ h rfl
    · exact h
  · intro e he
    simp at he

theorem bump_missed (tr : TeamResults) (id : ℤ) (f : Tally → Tally)
    (hf : ∀ t, (f t).missed_playoffs = t.missed_playoffs)
    (h : ∀ e ∈ tr, e.2.tally.missed_playoffs = 0) :
    ∀ e ∈ bumpTally tr id f, e.2.tally.missed_playoffs = 0 := by
  intro e he
  unfold bumpTally at he
  obtain ⟨x, hx, hxe⟩ := List.mem_map.mp he
  by_cases hid : x.1 = id
  · rw [if_pos hid] at hxe
    rw [← hxe]
    dsimp only
    rw [hf]
    exact h x hx
  · rw [if_neg hid] at hxe
    rw [← hxe]
    exact h x hx

theorem update_missed (tr : TeamResults) (pr : PlayoffResult)
    (h : ∀ e ∈ tr, e.2.tally.missed_playoffs = 0) :
    ∀ e ∈ update_team_results tr pr, e.2.tally.missed_playoffs = 0 := by
  unfold update_team_results
  dsimp only
  have round_step : ∀ (f : Tally → Tally),
      (∀ t, (f t).missed_playoffs = t.missed_playoffs) →
      ∀ (m : ConfMap (List ℤ)) (tr : TeamResults),
        (∀ e ∈ tr, e.2.tally.missed_playoffs = 0) →
        ∀ e ∈ m.foldl
          (fun tr e => e.2.foldl (fun tr id => bumpTally tr id f) tr) tr,
          e.2.tally.missed_playoffs = 0 := by
    intro f hf m tr h
    apply foldl_preserve
      (fun tr : TeamResults => ∀ e ∈ tr, e.2.tally.missed_playoffs = 0)
    · intro tr ce hh
      apply foldl_preserve
        (fun tr : TeamResults => ∀ e ∈ tr, e.2.tally.missed_playoffs = 0)
      · intro tr id hh
        exact bump_missed tr id f hf hh
      · exact hh
    · exact h
  apply round_step
    (fun t => { t with conference_finals := t.conference_finals + 1 })
    (fun t => rfl)
  apply round_step
    (fun t => { t with conference_semifinals := t.conference_semifinals + 1 })
    (fun t => rfl)
  apply round_step
    (fun t => { t with first_round := t.first_round + 1 })
    (fun t => rfl)
  apply round_step
    (fun t => { t with play_in := t.play_in + 1 })
    (fun t => rfl)
  apply foldl_preserve
    (fun tr : TeamResults => ∀ e ∈ tr, e.2.tally.missed_playoffs = 0)
  · intro tr ce hh
    cases hce : ce.2 with
    | some c =>
      exact bump_missed tr c.team_id
        (fun t => { t with conference_finals := t.conference_finals + 1 })
        (fun t => rfl) hh
    | none =>
      exact hh
  apply foldl_preserve
    (fun tr : TeamResults => ∀ e ∈ tr, e.2.tally.missed_playoffs = 0)
  · intro tr team hh
    exact bump_missed tr team.team_id
      (fun t => { t with finals_appearances := t.finals_appearances + 1 })
      (fun t => rfl) hh
  cases hch : pr.champion with
  | some c =>
    exact bump_missed tr c.team_id
      (fun t => { t with championships := t.championships + 1 })
      (fun t => rfl) h
  | none => exact h

theorem loop_missed (ratings : Ratings) (rng : Rng) (standings : Standings)
    (pos : ℕ) :
    ∀ (n : ℕ) (tr : TeamResults) (p : ℕ),
      run_simulation_loop ratings rng standings pos n = some (tr, p) →
      ∀ e ∈ tr, e.2.tally.missed_playoffs = 0 := by
  intro n
  induction n with
  | zero =>
    intro tr p hrun
    rw [run_simulation_loop] at hrun
    have h1 : init_team_results standings = tr :=
      (Prod.ext_iff.mp (Option.some_inj.mp hrun)).1
    rw [← h1]
    exact init_missed standings
  | succ k ih =>
    intro tr p hrun
    rw [run_simulation_loop] at hrun
    cases hk : run_simulation_loop ratings rng standings pos k with
    | none => rw [hk] at hrun; exact absurd hrun (by simp)
    | some prev =>
      obtain ⟨prev1, prev2⟩ := prev
      rw [hk] at hrun
      dsimp only at hrun
      cases hs : simulate_single_playoff ratings rng standings prev2 with
      | none => rw [hs] at hrun; exact absurd hrun (by simp)
      | some res =>
        obtain ⟨res1, res2⟩ := res
        rw [hs] at hrun
        dsimp only at hrun
        have h1 : update_team_results prev1 res1 = tr :=
          (Prod.ext_iff.mp (Option.some_inj.mp hrun)).1
        rw [← h1]
        exact update_missed prev1 res1 (ih prev1 prev2 hk)

theorem pyRound4_one : pyRound 4 1 = 1 := by
  norm_num [pyRound, round_eq]

theorem convert_missed_zero (tr : TeamResults) (sims : ℤ)
    (trP : List (ℤ × TeamResultP))
    (hconv : convert_team_results tr sims = some trP)
    (h : ∀ e ∈ tr, e.2.tally.missed_playoffs = 0) :
    ∀ p ∈ trP, p.2.probs.missed_playoffs_probability = 0 := by
  unfold convert_team_results at hconv
  by_cases hc : sims = 0 ∧ tr ≠ []
  · rw [if_pos hc] at hconv
    exact absurd hconv (by simp)
  · rw [if_neg hc] at hconv
    intro p hp
    rw [← Option.some_inj.mp hconv] at hp
    obtain ⟨x, hx, hxp⟩ := List.mem_map.mp hp
    rw [← hxp]
    dsimp only [convert_team_result]
    rw [h x hx]
    norm_num

theorem run_missed_zero (ratings : Ratings) (rng : Rng) (standings : Standings)
    (sims : ℤ) (trP : List (ℤ × TeamResultP))
    (hrun : run_championship_simulations ratings rng standings sims = some trP) :
    ∀ p ∈ trP, p.2.probs.missed_playoffs_probability = 0 := by
  unfold run_championship_simulations at hrun
  cases hloop : run_simulation_loop ratings rng standings 0 sims.toNat with
  | none => rw [hloop] at hrun; exact absurd hrun (by simp)
  | some res =>
    obtain ⟨tr, p⟩ := res
    rw [hloop] at hrun
    dsimp only at hrun
    exact convert_missed_zero tr sims trP hrun
      (loop_missed ratings rng standings 0 sims.toNat tr p hloop)

theorem format_champ_odds_playoff_one (trP : List (ℤ × TeamResultP))
    (h : ∀ p ∈ trP, p.2.probs.missed_playoffs_probability = 0) :
    ∀ e ∈ format_championship_odds trP, e.playoff_probability = 1 := by
  intro e he
  unfold format_championship_odds at he
  rw [List.mem_mergeSort] at he
  obtain ⟨x, hx, hxe⟩ := List.mem_map.mp he
  rw [← hxe]
  dsimp only
  rw [h x hx, sub_zero]
  exact pyRound4_one

theorem round_probs_make_playoffs_one (trP : List (ℤ × TeamResultP))
    (h : ∀ p ∈ trP, p.2.probs.missed_playoffs_probability = 0) :
    ∀ rp ∈ calculate_round_probabilities trP, rp.2.make_playoffs = 1 := by
  intro rp hrp
  unfold calculate_round_probabilities at hrp
  obtain ⟨x, hx, hxe⟩ := List.mem_map.mp hrp
  rw [← hxe]
  dsimp only
  rw [h x hx, sub_zero]
  exact pyRound4_one

theorem conf_odds_playoff_one (trP : List (ℤ × TeamResultP))
    (standings : Standings) (m : ConfMap (List ConfOddsEntry))
    (hm : format_conference_odds trP standings = some m)
    (h : ∀ p ∈ trP, p.2.probs.missed_playoffs_probability = 0) :
    ∀ ce ∈ m, ∀ e ∈ ce.2, e.playoff_probability = 1 := by
  unfold format_conference_odds at hm
  have main : ∀ (acc : Option (ConfMap (List ConfOddsEntry))),
      (∀ mm, acc = some mm → ∀ ce ∈ mm, ∀ e ∈ ce.2, e.playoff_probability = 1) →
      ∀ mm, standings.foldl
          (fun acc ct =>
            match acc with
            | none => none
            | some m =>
              if (m.lookup ct.1).isSome then
                let entries := ct.2.foldl
                  (fun es team =>
                    match trP.lookup team.team_id with
                    | some r =>
                      es ++ [{ team_id := team.team_id
                               team_name := team.team_name
                               team_abbreviation := team.team_abbreviation
                               rank := team.rank
                               conference_championship_probability :=
                                 pyRound 4 r.probs.conference_finals_probability
                               playoff_probability :=
                                 pyRound 4 (1 - r.probs.missed_playoffs_probability) :
                               ConfOddsEntry }]
                    | none => es)
                  []
                some (m.map fun e =>
                  if e.1 = ct.1 then
                    (e.1, (e.2 ++ entries).mergeSort fun a b =>
                      decide (b.conference_championship_probability ≤
                        a.conference_championship_probability))
                  else e)
              else none)
          acc = some mm →
        ∀ ce ∈ mm, ∀ e ∈ ce.2, e.playoff_probability = 1 := by
    intro acc hacc mm hfold
    refine foldl_preserve
      (fun acc : Option (ConfMap (List ConfOddsEntry)) =>
        ∀ mm, acc = some mm → ∀ ce ∈ mm, ∀ e ∈ ce.2, e.playoff_probability = 1)
      _ ?_ standings acc hacc mm hfold
    intro b ct hb
    cases b with
    | none => intro mm hmm; exact absurd hmm (by simp)
    | some m0 =>
      dsimp only
      by_cases hkey : (m0.lookup ct.1).isSome
      · rw [if_pos hkey]
        intro mm hmm
        rw [← Option.some_inj.mp hmm]
        intro ce hce
        obtain ⟨x, hx, hxe⟩ := List.mem_map.mp hce
        by_cases hc : x.1 = ct.1
        · rw [if_pos hc] at hxe
          rw [← hxe]
          dsimp only
          intro e he
          rw [List.mem_mergeSort] at he
          rcases List.mem_append.mp he with hL | hR
          · exact hb m0 rfl x hx e hL
          · refine foldl_preserve
              (fun es : List ConfOddsEntry => ∀ e ∈ es, e.playoff_probability = 1)
              _ ?_ ct.2 [] ?_ e hR
            · intro es team hes
              cases hr : trP.lookup team.team_id with
              | some r =>
                intro e he
                rcases List.mem_append.mp he with h1 | h2
                · exact hes e h1
                · simp at h2
                  rw [h2]
                  dsimp only
                  obtain ⟨a, ha⟩ := lookup_mem trP team.team_id r hr
                  rw [h (a, r) ha, sub_zero]
                  exact pyRound4_one
              | none => exact hes
            · intro ee hee
              simp at hee
        · rw [if_neg hc] at hxe
          rw [← hxe]
          exact hb m0 rfl x hx
      · rw [if_neg hkey]
        intro mm hmm
        exact absurd hmm (by simp)
  exact main (some [("Eastern", []), ("Western", [])]) (by
    intro mm hmm
    rw [← Option.some_inj.mp hmm]
    intro ce hce
    simp only [List.mem_cons, List.not_mem_nil, or_false] at hce
    rcases hce with h1 | h1 <;> rw [h1] <;> intro e he <;> simp at he) m hm

/-- C9: the aggregator's reported `playoff_probability` (championship and
conference odds) and `make_playoffs` (round probabilities) equal exactly 1
for every reported team: the `missed_playoffs` counter is initialised to 0,
no update path of `_update_team_results` ever increments it, and the
reported value is `round(1 - missed_playoffs / simulations, 4) = 1`. -/
theorem C9_playoff_probability_always_one (ratings : Ratings) (rng : Rng)
    (standings : Standings) (simulations : ℤ) (hsim : 1 ≤ simulations) :
    (∀ e ∈ (calculate_comprehensive_odds ratings rng standings
        simulations).championship_odds, e.playoff_probability = 1) ∧
    (∀ ce ∈ (calculate_comprehensive_odds ratings rng standings
        simulations).conference_odds, ∀ e ∈ ce.2, e.playoff_probability = 1) ∧
    (∀ rp ∈ (calculate_comprehensive_odds ratings rng standings
        simulations).round_probabilities, rp.2.make_playoffs = 1) := by
  unfold calculate_comprehensive_odds
  cases hrun : run_championship_simulations ratings rng standings simulations with
  | none =>
    dsimp only
    refine ⟨?_, ?_, ?_⟩
    · intro e he
      simp [get_default_odds] at he
    · intro ce hce
      simp only [get_default_odds, List.mem_cons, List.not_mem_nil, or_false]
        at hce
      rcases hce with h1 | h1 <;> rw [h1] <;> intro e he <;> simp at he
    · intro rp hrp
      simp [get_default_odds] at hrp
  | some trP =>
    have hmz := run_missed_zero ratings rng standings simulations trP hrun
    cases hfmt : format_conference_odds trP standings with
    | none =>
      dsimp only
      rw [hfmt]
      refine ⟨?_, ?_, ?_⟩
      · intro e he
        simp [get_default_odds] at he
      · intro ce hce
        simp only [get_default_odds, List.mem_cons, List.not_mem_nil, or_false]
          at hce
        rcases hce with h1 | h1 <;> rw [h1] <;> intro e he <;> simp at he
      · intro rp hrp
        simp [get_default_odds] at hrp
    | some conf =>
      dsimp only
      rw [hfmt]
      exact ⟨format_champ_odds_playoff_one trP hmz,
             conf_odds_playoff_one trP standings conf hfmt hmz,
             round_probs_make_playoffs_one trP hmz⟩

/-- Witness for C9 at a concrete input. -/
theorem C9_witness :
    (∀ e ∈ (calculate_comprehensive_odds constRatings rng14 std3
        1).championship_odds, e.playoff_probability = 1) ∧
    (∀ ce ∈ (calculate_comprehensive_odds constRatings rng14 std3
        1).conference_odds, ∀ e ∈ ce.2, e.playoff_probability = 1) ∧
    (∀ rp ∈ (calculate_comprehensive_odds constRatings rng14 std3
        1).round_probabilities, rp.2.make_playoffs = 1) :=
  C9_playoff_probability_always_one constRatings rng14 std3 1 (le_refl 1)

/-- C4: the Elo-style single-game win probability is symmetric —
`winProbability(A,B) + winProbability(B,A) = 1` for every rating pair, and
an equal-ratings game is a coin flip: `winProbability(A,A) = 1/2`. -/
theorem C4_winProbability_symmetric (a b : ℚ) :
    winProbability a b + winProbability b a = 1 ∧
    winProbability a a = 1 / 2 :=
  ⟨winProbability_add_symm a b, winProbability_self a⟩

/-- C10: (i) `_simulate_head_to_head` makes the first-listed team win
exactly when the draw is below `min(0.95, 1.1 * p)` with `p` the oracle
probability of team1 beating team2; (ii) at equal ratings that threshold
is 0.55, which differs from the oracle's 0.5, so the two argument orders
are not symmetric; (iii) in `_simulate_single_playoff` the finals pass the
first-listed conference's champion as the first (boosted) team of the
head-to-head. -/
theorem C10_first_team_boost :
    (∀ (ratings : Ratings) (rng : Rng) (t1 t2 : SeedEntry) (pos : ℕ),
        simulate_head_to_head ratings rng t1 t2 pos =
          (if ((rng pos : ℚ) : ℝ) <
              min (0.95 : ℝ)
                (winProbability (ratings t1.team_id) (ratings t2.team_id) * 1.1)
            then t1 else t2, pos + 1)) ∧
    (∀ a : ℚ, min (0.95 : ℝ) (winProbability a a * 1.1) = 11 / 20 ∧
        winProbability a a ≠ 11 / 20) ∧
    (∀ (ratings : Ratings) (rng : Rng) (ts1 ts2 : List SeedEntry) (pos : ℕ)
        (c1 c2 : SeedEntry) (l1 l2 : ConfLog) (p1 p2 : ℕ),
        simulate_conference_playoffs ratings rng ts1 pos = some (c1, l1, p1) →
        simulate_conference_playoffs ratings rng ts2 p1 = some (c2, l2, p2) →
        ∃ pr : PlayoffResult,
          simulate_single_playoff ratings rng
              [("Eastern", ts1), ("Western", ts2)] pos = some (pr, p2 + 1) ∧
          pr.finals_teams = [c1, c2] ∧
          pr.champion = some (simulate_finals ratings rng c1 c2 p2).1) := by
  refine ⟨fun ratings rng t1 t2 pos => rfl, fun a => ?_, ?_⟩
  · constructor
    · exact boosted_threshold_self a
    · rw [winProbability_self]
      norm_num
  · intro ratings rng ts1 ts2 pos c1 c2 l1 l2 p1 p2 h1 h2
    simp only [simulate_single_playoff, List.foldl_cons, List.foldl_nil, h1]
    simp [appendConf, upsertConf, List.lookup, h2, simulate_finals]
    exact ⟨_, ⟨rfl, rfl⟩, rfl, rfl⟩

/-- Witness for C10 (iii) at a concrete input. -/
theorem C10_witness :
    ∃ pr : PlayoffResult,
      simulate_single_playoff constRatings rng14
          [("Eastern", E8), ("Western", W8)] 0 = some (pr, 0 + 7 + 7 + 1) ∧
      pr.finals_teams = [mkSeed 1 1, mkSeed 1 11] ∧
      pr.champion =
        some (simulate_finals constRatings rng14 (mkSeed 1 1) (mkSeed 1 11)
          (0 + 7 + 7)).1 :=
  C10_first_team_boost.2.2 constRatings rng14 E8 W8 0 (mkSeed 1 1) (mkSeed 1 11)
    _ _ (0 + 7) (0 + 7 + 7)
    (conf8_14 (mkSeed 1 1) (mkSeed 2 2) (mkSeed 3 3) (mkSeed 4 4) (mkSeed 5 5)
      (mkSeed 6 6) (mkSeed 7 7) (mkSeed 8 8) 0)
    (conf8_14 (mkSeed 1 11) (mkSeed 2 12) (mkSeed 3 13) (mkSeed 4 14)
      (mkSeed 5 15) (mkSeed 6 16) (mkSeed 7 17) (mkSeed 8 18) (0 + 7))

/-- C6: the play-in resolution on exactly 4 seeds (plus any ignored
extras) returns exactly 2 qualifiers — the winner of Game 1 (seed7 vs
seed8) and the winner of (loser of Game 1) vs (winner of Game 2, seed9 vs
seed10) — and with fewer than 4 teams it returns the top available teams
unchanged. -/
theorem C6_play_in_structure (ratings : Ratings) (rng : Rng) :
    (∀ (t7 t8 t9 t10 : SeedEntry) (rest : List SeedEntry) (pos : ℕ),
        (simulate_play_in ratings rng (t7 :: t8 :: t9 :: t10 :: rest) pos).1 =
          [(simulate_head_to_head ratings rng t7 t8 pos).1,
           (simulate_head_to_head ratings rng
             (if (simulate_head_to_head ratings rng t7 t8 pos).1 = t7 then t8 else t7)
             (simulate_head_to_head ratings rng t9 t10
               (simulate_head_to_head ratings rng t7 t8 pos).2).1
             (simulate_head_to_head ratings rng t9 t10
               (simulate_head_to_head ratings rng t7 t8 pos).2).2).1] ∧
        (simulate_play_in ratings rng (t7 :: t8 :: t9 :: t10 :: rest) pos).1.length = 2) ∧
    (∀ (ts : List SeedEntry) (pos : ℕ), ts.length < 4 →
        simulate_play_in ratings rng ts pos = (ts.take 2, pos)) := by
  constructor
  · intro t7 t8 t9 t10 rest pos
    constructor
    · unfold simulate_play_in
      rw [if_neg (by simp)]
    · unfold simulate_play_in
      rw [if_neg (by simp)]
      rfl
  · intro ts pos h
    unfold simulate_play_in
    rw [if_pos h]

/-- Witness for C6 at a concrete input with fewer than 4 teams. -/
theorem C6_witness :
    simulate_play_in constRatings rng14 [mkSeed 7 7] 0 = ([mkSeed 7 7].take 2, 0) :=
  (C6_play_in_structure constRatings rng14).2 [mkSeed 7 7] 0 (by norm_num)

theorem winProbability_1100_1500 : winProbability 1100 1500 = 1 / 11 := by
  unfold winProbability
  rw [show ((((1500 : ℚ) - 1100 : ℚ) : ℝ) / 400) = 1 by push_cast; norm_num,
    Real.rpow_one]
  norm_num

theorem winProbability_1500_1100 : winProbability 1500 1100 = 10 / 11 := by
  unfold winProbability
  rw [show ((((1100 : ℚ) - 1500 : ℚ) : ℝ) / 400) = -1 by push_cast; norm_num,
    show (-1 : ℝ) = -(1 : ℝ) by norm_num,
    Real.rpow_neg (by norm_num), Real.rpow_one]
  norm_num

/-- C5 (counterexample): in the series between team 1 (rating 1100, listed
first) and team 2 (rating 1500, the favorite with single-game probability
10/11 ≥ 0.7), the predicted length is 6 games — not in the {4, 5} bucket
the claim requires for a favorite this strong, because
`_predict_series_length` is applied to team1's probability 1/11, not the
favorite's. -/
theorem C5_counter :
    (0.7 : ℝ) ≤ winProbability (ratingsC5 (mkSeed 2 2).team_id)
      (ratingsC5 (mkSeed 1 1).team_id) ∧
    (predict_series ratingsC5 rng14 (mkSeed 1 1) (mkSeed 2 2) 7 0).1.predicted_games
      = 6 ∧
    ¬ ((6 : ℤ) ∈ ([4, 5] : List ℤ)) := by
  refine ⟨?_, ?_, by norm_num⟩
  · rw [show ratingsC5 (mkSeed 2 2).team_id = 1500 from rfl,
      show ratingsC5 (mkSeed 1 1).team_id = 1100 from rfl,
      winProbability_1500_1100]
    norm_num
  · unfold predict_series
    dsimp only
    rw [show ratingsC5 (mkSeed 1 1).team_id = 1100 from rfl,
      show ratingsC5 (mkSeed 2 2).team_id = 1500 from rfl,
      winProbability_1100_1500]
    unfold predict_series_length
    rw [if_neg (by norm_num), if_neg (by norm_num)]
    norm_num [choice2, rng14]

/-- C5 (amended): the predicted series length is determined by the
first-listed team's (team1's) single-game probability, with thresholds
`≥ 0.7 → {4, 5}`, `≥ 0.6 → {5, 6}`, otherwise `{6, 7}`; and
`_predict_series` indeed feeds team1's oracle probability into
`_predict_series_length`. -/
theorem C5_predicted_length_from_team1_prob (q u : ℚ) :
    ((7 / 10 : ℚ) ≤ q → predict_series_length (q : ℝ) u ∈ ([4, 5] : List ℤ)) ∧
    ((6 / 10 : ℚ) ≤ q → q < 7 / 10 →
        predict_series_length (q : ℝ) u ∈ ([5, 6] : List ℤ)) ∧
    (q < 6 / 10 → predict_series_length (q : ℝ) u ∈ ([6, 7] : List ℤ)) ∧
    (∀ (ratings : Ratings) (rng : Rng) (t1 t2 : SeedEntry) (sl : ℤ) (pos : ℕ),
        ∃ m : ℚ, (predict_series ratings rng t1 t2 sl pos).1.predicted_games =
          predict_series_length
            (winProbability (ratings t1.team_id) (ratings t2.team_id)) m) := by
  have h7 : (0.7 : ℝ) = ((7 / 10 : ℚ) : ℝ) := by norm_num
  have h6 : (0.6 : ℝ) = ((6 / 10 : ℚ) : ℝ) := by norm_num
  refine ⟨?_, ?_, ?_, ?_⟩
  · intro h
    unfold predict_series_length
    rw [if_pos (by rw [h7]; exact Rat.cast_le.mpr h)]
    unfold choice2
    split <;> simp
  · intro h1 h2
    have hn7 : ¬ ((0.7 : ℝ) ≤ (q : ℝ)) := by
      rw [h7]
      exact fun hc => absurd (Rat.cast_le.mp hc) (not_le.mpr h2)
    have hy6 : (0.6 : ℝ) ≤ (q : ℝ) := by
      rw [h6]
      exact Rat.cast_le.mpr h1
    unfold predict_series_length
    rw [if_neg hn7, if_pos hy6]
    unfold choice2
    split <;> simp
  · intro h
    have hq7 : q < 7 / 10 := lt_trans h (by norm_num)
    have hn7 : ¬ ((0.7 : ℝ) ≤ (q : ℝ)) := by
      rw [h7]
      exact fun hc => absurd (Rat.cast_le.mp hc) (not_le.mpr hq7)
    have hn6 : ¬ ((0.6 : ℝ) ≤ (q : ℝ)) := by
      rw [h6]
      exact fun hc => absurd (Rat.cast_le.mp hc) (not_le.mpr h)
    unfold predict_series_length
    rw [if_neg hn7, if_neg hn6]
    unfold choice2
    split <;> simp
  · intro ratings rng t1 t2 sl pos
    exact ⟨_, rfl⟩

/-- Witness for C5 (amended) at a concrete input. -/
theorem C5_witness :
    predict_series_length ((4 / 5 : ℚ) : ℝ) (1 / 4) ∈ ([4, 5] : List ℤ) :=
  (C5_predicted_length_from_team1_prob (4 / 5) (1 / 4)).1 (by norm_num)

/-! ### Series simulation under an all-losses draw stream (C1 support) -/

theorem series_loop_const_lose (rng : Rng) (p : ℝ)
    (h : ∀ pos, ¬ (((rng pos : ℚ) : ℝ) < p)) (gn : ℤ) :
    ∀ (n : ℕ) (w1 w2 : ℤ) (pos : ℕ), w1 < gn → w2 ≤ gn → (gn - w2).toNat = n →
      simulate_single_series_loop rng p gn w1 w2 pos = (w1, gn, pos + n) := by
  intro n
  induction n with
  | zero =>
    intro w1 w2 pos hw1 hw2 hn
    have hw : w2 = gn := by omega
    rw [simulate_single_series_loop, if_neg (by omega), hw, Nat.add_zero]
  | succ k ih =>
    intro w1 w2 pos hw1 hw2 hn
    have hw2' : w2 < gn := by omega
    rw [simulate_single_series_loop, if_pos ⟨hw1, hw2'⟩, if_neg (h pos),
      ih w1 (w2 + 1) (pos + 1) hw1 (by omega) (by omega)]
    have e : pos + 1 + k = pos + (k + 1) := by omega
    rw [e]

theorem simulate_single_series_const_lose (rng : Rng) (p : ℝ)
    (h : ∀ pos, ¬ (((rng pos : ℚ) : ℝ) < p)) (pos : ℕ) :
    simulate_single_series rng p 7 pos = (0, 4, pos + 4) := by
  unfold simulate_single_series
  rw [show ((7 : ℤ).fdiv 2 + 1) = 4 from rfl]
  exact series_loop_const_lose rng p h 4 4 0 0 pos (by norm_num) (by norm_num)
    rfl

theorem predict_series_fold_const_lose (rng : Rng) (p : ℝ) (sl : ℤ)
    (hser : ∀ pos, simulate_single_series rng p sl pos = (0, 4, pos + 4)) :
    ∀ (n a b pos : ℕ),
      (List.range n).foldl
        (fun acc _ =>
          let s := simulate_single_series rng p sl acc.2.2
          if s.2.1 < s.1 then (acc.1 + 1, acc.2.1, s.2.2)
          else (acc.1, acc.2.1 + 1, s.2.2))
        ((a, b, pos) : ℕ × ℕ × ℕ) = (a, b + n, pos + 4 * n) := by
  intro n
  induction n with
  | zero => intro a b pos; simp
  | succ k ih =>
    intro a b pos
    rw [List.range_succ, List.foldl_append, ih]
    simp only [List.foldl_cons, List.foldl_nil]
    rw [hser]
    dsimp only
    rw [if_neg (by norm_num)]
    have e1 : b + k + 1 = b + (k + 1) := by omega
    have e2 : pos + 4 * k + 4 = pos + 4 * (k + 1) := by omega
    rw [e1, e2]

theorem rng52_not_lt_half :
    ∀ pos, ¬ (((rng52 pos : ℚ) : ℝ) < winProbability 1500 1500) := by
  intro pos
  rw [winProbability_self]
  norm_num [rng52]

/-- Under `rng52` (every draw 0.52) and equal ratings, the boosted
head-to-head of the calculator picks the first-listed team. -/
theorem h2h_52_first (pos : ℕ) :
    (simulate_head_to_head constRatings rng52 (mkSeed 1 1) (mkSeed 2 2) pos).1 =
      mkSeed 1 1 := by
  rw [h2h_const]
  norm_num [rng52]

/-- Under `rng52` and equal ratings, the bracket constructor's series
simulation (1000 series at the un-boosted oracle probability 0.5) picks
the second team: every game draw 0.52 is a loss for team1 at probability
0.5, so team1's empirical series probability is 0. -/
theorem predict_series_52 :
    (predict_series constRatings rng52 (mkSeed 1 1) (mkSeed 2 2) 7
        0).1.predicted_winner = mkSeed 2 2 := by
  unfold predict_series
  dsimp only
  rw [show constRatings (mkSeed 1 1).team_id = 1500 from rfl,
    show constRatings (mkSeed 2 2).team_id = 1500 from rfl,
    predict_series_fold_const_lose rng52 (winProbability 1500 1500) 7
      (fun pos => simulate_single_series_const_lose rng52 _ rng52_not_lt_half pos)
      1000 0 0 0]
  dsimp only
  rw [if_neg (by norm_num)]

/-- C1 (counterexample): the aggregator and the bracket constructor do not
share a matchup-resolution rule.  With equal ratings and the same draw
stream `rng52`, the calculator's head-to-head (one boosted game at
threshold 0.55) resolves the matchup for the first team, while the bracket
constructor's `_predict_series` (1000 series at the oracle probability
0.5) resolves it for the second team. -/
theorem C1_resolution_rules_disagree :
    (simulate_head_to_head constRatings rng52 (mkSeed 1 1) (mkSeed 2 2) 0).1 =
      mkSeed 1 1 ∧
    (predict_series constRatings rng52 (mkSeed 1 1) (mkSeed 2 2) 7
        0).1.predicted_winner = mkSeed 2 2 ∧
    mkSeed 1 1 ≠ mkSeed 2 2 :=
  ⟨h2h_52_first 0, predict_series_52, by decide⟩

/-- C1 (amended): `_run_championship_simulations` obtains its tallies by
iterating its own `_simulate_single_playoff` (one `_update_team_results`
per sample), not by running `generate_playoff_bracket`; its matchup rule
(a single boosted Bernoulli game) can disagree with the bracket
constructor's series-simulation rule on the same ratings and draws. -/
theorem C1_aggregator_uses_own_simulator :
    (∀ (ratings : Ratings) (rng : Rng) (standings : Standings) (pos n : ℕ),
        run_simulation_loop ratings rng standings pos (n + 1) =
          match run_simulation_loop ratings rng standings pos n with
          | none => none
          | some (tr, p) =>
            match simulate_single_playoff ratings rng standings p with
            | none => none
            | some (pr, p') => some (update_team_results tr pr, p')) ∧
    ((simulate_head_to_head constRatings rng52 (mkSeed 1 1) (mkSeed 2 2) 0).1 =
        mkSeed 1 1 ∧
      (predict_series constRatings rng52 (mkSeed 1 1) (mkSeed 2 2) 7
          0).1.predicted_winner = mkSeed 2 2) :=
  ⟨fun ratings rng standings pos n => rfl,
   h2h_52_first 0, predict_series_52⟩

/-- The first-round matchup pairs produced by `_create_first_round` for
two conferences with at least 8 seeds: seeds 1-8 of the standings are used
unchanged and paired 1v8, 2v7, 3v6, 4v5. -/
theorem create_first_round_pairs (ratings : Ratings) (rng : Rng)
    (a1 a2 a3 a4 a5 a6 a7 a8 : SeedEntry) (r1 : List SeedEntry)
    (b1 b2 b3 b4 b5 b6 b7 b8 : SeedEntry) (r2 : List SeedEntry) (pos : ℕ) :
    ∃ ms1 ms2 pos',
      create_first_round ratings rng
          [("Eastern", a1 :: a2 :: a3 :: a4 :: a5 :: a6 :: a7 :: a8 :: r1),
           ("Western", b1 :: b2 :: b3 :: b4 :: b5 :: b6 :: b7 :: b8 :: r2)] pos =
        some ([("Eastern", ms1), ("Western", ms2)], pos') ∧
      ms1.map (fun m => (m.higher_seed, m.lower_seed)) =
        [(a1, a8), (a2, a7), (a3, a6), (a4, a5)] ∧
      ms2.map (fun m => (m.higher_seed, m.lower_seed)) =
        [(b1, b8), (b2, b7), (b3, b6), (b4, b5)] := by
  unfold create_first_round
  simp only [List.foldl_cons, List.foldl_nil]
  norm_num [appendConf, upsertConf, List.lookup, List.take, List.drop]
  simp only [String.reduceBEq, String.reduceEq]
  norm_num
  refine ⟨_, _, ⟨rfl, rfl⟩, ?_, ?_⟩ <;> simp

/-- C2 (amended): the 8-team first-round field built by the bracket
constructor is seeds 1-8 of the standings unchanged — `_create_first_round`
assumes the original 7th and 8th seeds as the play-in winners without
resolving the play-in — and pairs them 1v8, 2v7, 3v6, 4v5. -/
theorem C2_first_round_uses_seeds_1_to_8 (ratings : Ratings) (rng : Rng)
    (a1 a2 a3 a4 a5 a6 a7 a8 : SeedEntry) (r1 : List SeedEntry)
    (b1 b2 b3 b4 b5 b6 b7 b8 : SeedEntry) (r2 : List SeedEntry) (pos : ℕ) :
    ∃ ms1 ms2 pos',
      create_first_round ratings rng
          [("Eastern", a1 :: a2 :: a3 :: a4 :: a5 :: a6 :: a7 :: a8 :: r1),
           ("Western", b1 :: b2 :: b3 :: b4 :: b5 :: b6 :: b7 :: b8 :: r2)] pos =
        some ([("Eastern", ms1), ("Western", ms2)], pos') ∧
      ms1.map (fun m => (m.higher_seed, m.lower_seed)) =
        [(a1, a8), (a2, a7), (a3, a6), (a4, a5)] ∧
      ms2.map (fun m => (m.higher_seed, m.lower_seed)) =
        [(b1, b8), (b2, b7), (b3, b6), (b4, b5)] :=
  create_first_round_pairs ratings rng a1 a2 a3 a4 a5 a6 a7 a8 r1
    b1 b2 b3 b4 b5 b6 b7 b8 r2 pos

/-- Under `rngC2`, the play-in on seeds 7-10 of `ts10` qualifies seeds 7
and 9. -/
theorem playin_rngC2_eval :
    (simulate_play_in constRatings rngC2 ((ts10.drop 6).take 4) 0).1.map
      (·.team_id) = [7, 9] := by
  rw [show (ts10.drop 6).take 4 =
    [mkSeed 7 7, mkSeed 8 8, mkSeed 9 9, mkSeed 10 10] from rfl]
  unfold simulate_play_in
  rw [if_neg (by norm_num)]
  dsimp only
  norm_num [h2h_const, rngC2, mkSeed]

/-- C2 (counterexample): with 10 equal-rated teams per conference and the
draw stream `rngC2`, the play-in sub-tournament on seeds 7-10 emits
qualifiers with ids 7 and 9, yet the first round built by
`_create_first_round` fields ids 1-8 (pairing 1v8, 2v7, 3v6, 4v5); seeds
1-6 plus the play-in qualifiers is not the fielded set. -/
theorem C2_field_ignores_play_in :
    (simulate_play_in constRatings rngC2 ((ts10.drop 6).take 4) 0).1.map
      (·.team_id) = [7, 9] ∧
    (create_first_round constRatings rngC2 std10 0).map
        (fun r => (r.1.lookup "Eastern").map
          (List.map fun m => (m.higher_seed.team_id, m.lower_seed.team_id))) =
      some (some [(1, 8), (2, 7), (3, 6), (4, 5)]) ∧
    (ts10.take 6).map (·.team_id) ++ [(7 : ℤ), 9] ≠
      [1, 2, 3, 4, 5, 6, 7, 8] := by
  refine ⟨playin_rngC2_eval, ?_, by decide⟩
  obtain ⟨ms1, ms2, pos', heq, hm1, hm2⟩ :=
    create_first_round_pairs constRatings rngC2 (mkSeed 1 1) (mkSeed 2 2)
      (mkSeed 3 3) (mkSeed 4 4) (mkSeed 5 5) (mkSeed 6 6) (mkSeed 7 7)
      (mkSeed 8 8) [mkSeed 9 9, mkSeed 10 10] (mkSeed 1 1) (mkSeed 2 2)
      (mkSeed 3 3) (mkSeed 4 4) (mkSeed 5 5) (mkSeed 6 6) (mkSeed 7 7)
      (mkSeed 8 8) [mkSeed 9 9, mkSeed 10 10] 0
  rw [show std10 = [("Eastern", mkSeed 1 1 :: mkSeed 2 2 :: mkSeed 3 3 ::
      mkSeed 4 4 :: mkSeed 5 5 :: mkSeed 6 6 :: mkSeed 7 7 :: mkSeed 8 8 ::
      [mkSeed 9 9, mkSeed 10 10]),
    ("Western", mkSeed 1 1 :: mkSeed 2 2 :: mkSeed 3 3 :: mkSeed 4 4 ::
      mkSeed 5 5 :: mkSeed 6 6 :: mkSeed 7 7 :: mkSeed 8 8 ::
      [mkSeed 9 9, mkSeed 10 10])] from rfl, heq]
  have h2 := congrArg
    (List.map fun p : SeedEntry × SeedEntry => (p.1.team_id, p.2.team_id)) hm1
  simp only [List.map_map] at h2
  simp only [Option.map_some', List.lookup, String.reduceBEq]
  rw [show (List.map (fun m => (m.higher_seed.team_id, m.lower_seed.team_id)) ms1)
    = List.map ((fun p : SeedEntry × SeedEntry => (p.1.team_id, p.2.team_id)) ∘
      fun m => (m.higher_seed, m.lower_seed)) ms1 from rfl, ← List.map_map, hm1]
  norm_num [mkSeed]

/-! ### Zero simulation count is absorbed into the default result (C8) -/

theorem upsert_ne_nil (tr : TeamResults) (id : ℤ) (r : TeamResult) :
    upsertResult tr id r ≠ [] := by
  unfold upsertResult
  by_cases hc : (tr.lookup id).isSome
  · rw [if_pos hc]
    cases tr with
    | nil => simp [List.lookup] at hc
    | cons e t => simp
  · rw [if_neg hc]
    simp

theorem init_team_results_ne_nil (c : String) (t : SeedEntry)
    (ts : List SeedEntry) (rest : Standings) :
    init_team_results ((c, t :: ts) :: rest) ≠ [] := by
  unfold init_team_results
  rw [List.foldl_cons]
  apply foldl_preserve (fun tr : TeamResults => tr ≠ [])
  · intro tr ct h
    apply foldl_preserve (fun tr : TeamResults => tr ≠ [])
    · intro tr team _
      exact upsert_ne_nil tr team.team_id _
    · exact h
  · dsimp only
    rw [List.foldl_cons]
    apply foldl_preserve (fun tr : TeamResults => tr ≠ [])
    · intro tr team _
      exact upsert_ne_nil tr team.team_id _
    · exact upsert_ne_nil [] t.team_id _

/-- With `simulations = 0` and at least one team in the standings, the
probability-conversion divisions raise and `calculate_comprehensive_odds`
returns `_get_default_odds`. -/
theorem calc_zero_default (ratings : Ratings) (rng : Rng) (c : String)
    (t : SeedEntry) (ts : List SeedEntry) (rest : Standings) :
    calculate_comprehensive_odds ratings rng ((c, t :: ts) :: rest) 0 =
      get_default_odds := by
  unfold calculate_comprehensive_odds run_championship_simulations
  rw [show (0 : ℤ).toNat = 0 from rfl, run_simulation_loop]
  dsimp only
  unfold convert_team_results
  rw [if_pos ⟨rfl, init_team_results_ne_nil c t ts rest⟩]

/-- C8 (amended): an invalid simulation count is not rejected with a
validation failure — `calculate_comprehensive_odds` with `simulations = 0`
on any standings with at least one team hits a `ZeroDivisionError` inside
its `try` block and silently returns the default empty-odds structure. -/
theorem C8_zero_simulations_returns_default (ratings : Ratings) (rng : Rng)
    (c : String) (t : SeedEntry) (ts : List SeedEntry) (rest : Standings) :
    calculate_comprehensive_odds ratings rng ((c, t :: ts) :: rest) 0 =
      get_default_odds :=
  calc_zero_default ratings rng c t ts rest

/-- C8 (counterexample): at the concrete invalid input `simulations = 0`
the aggregator produces the default structure — with empty odds lists and
`simulations_run = 0` — rather than surfacing a validation failure. -/
theorem C8_counter :
    calculate_comprehensive_odds constRatings rng14 std3 0 = get_default_odds ∧
    get_default_odds.championship_odds = [] ∧
    get_default_odds.simulations_run = 0 := by
  refine ⟨?_, rfl, rfl⟩
  rw [show std3 = ("Eastern", mkSeed 1 1 :: [mkSeed 2 2, mkSeed 3 3, mkSeed 4 4,
    mkSeed 5 5, mkSeed 6 6, mkSeed 7 7, mkSeed 8 8]) :: [("Western", W8)]
    from rfl]
  exact calc_zero_default constRatings rng14 "Eastern" (mkSeed 1 1) _ _

/-! ### Season standings: permutation, sortedness, ranks (C7 support) -/

theorem conference_season_step_some (ratings : Ratings) (rng : Rng)
    (teams : List ℤ) (sims : ℤ) (hs : sims ≠ 0)
    (stats : List (ℤ × TeamStats)) (p : ℕ) (id : ℤ) :
    ∃ st pn, conference_season_step ratings rng teams sims
      (some (stats, p)) id = some (stats ++ [(id, st)], pn) := by
  unfold conference_season_step
  dsimp only
  rw [if_neg hs]
  exact ⟨_, _, rfl⟩

theorem conf_season_fold (ratings : Ratings) (rng : Rng) (teams : List ℤ)
    (sims : ℤ) (hs : sims ≠ 0) :
    ∀ (l : List ℤ) (stats : List (ℤ × TeamStats)) (p : ℕ),
      ∃ L pn, l.foldl (conference_season_step ratings rng teams sims)
          (some (stats, p)) = some (stats ++ L, pn) ∧ L.map Prod.fst = l := by
  intro l
  induction l with
  | nil => intro stats p; exact ⟨[], p, by simp, rfl⟩
  | cons id tl ih =>
    intro stats p
    rw [List.foldl_cons]
    obtain ⟨st, pn, hstep⟩ :=
      conference_season_step_some ratings rng teams sims hs stats p id
    rw [hstep]
    obtain ⟨L, pn', hfold, hmap⟩ := ih (stats ++ [(id, st)]) pn
    refine ⟨(id, st) :: L, pn', ?_, ?_⟩
    · rw [hfold, List.append_assoc]
      rfl
    · rw [List.map_cons, hmap]

theorem simulate_conference_season_some (ratings : Ratings) (rng : Rng)
    (teams : List ℤ) (sims : ℤ) (hs : sims ≠ 0) (pos : ℕ) :
    ∃ L pn, simulate_conference_season ratings rng teams sims pos =
      some (L, pn) ∧ L.map Prod.fst = teams := by
  unfold simulate_conference_season
  obtain ⟨L, pn, hfold, hmap⟩ :=
    conf_season_fold ratings rng teams sims hs teams [] pos
  rw [hfold]
  exact ⟨L, pn, by rw [List.nil_append], hmap⟩

theorem enumerateFrom_map_proj {α β γ : Type} (f : ℕ × α → β) (g : β → γ)
    (proj : α → γ) (hfg : ∀ p : ℕ × α, g (f p) = proj p.2) :
    ∀ (l : List α) (n : ℕ),
      ((enumerateFrom n l).map f).map g = l.map proj := by
  intro l
  induction l with
  | nil => intro n; rfl
  | cons a t ih =>
    intro n
    rw [show enumerateFrom n (a :: t) = (n, a) :: enumerateFrom (n + 1) t
      from rfl]
    simp only [List.map_cons]
    rw [hfg (n, a), ih (n + 1)]

theorem map_enumerateFrom_getElem {α β : Type} (f : ℕ × α → β) :
    ∀ (l : List α) (n i : ℕ),
      ((enumerateFrom n l).map f)[i]? =
        l[i]?.map (fun a => f (n + i, a)) := by
  intro l
  induction l with
  | nil => intro n i; simp [enumerateFrom]
  | cons a t ih =>
    intro n i
    cases i with
    | zero => simp [enumerateFrom]
    | succ j =>
      rw [show enumerateFrom n (a :: t) = (n, a) :: enumerateFrom (n + 1) t
        from rfl]
      simp only [List.map_cons, List.getElem?_cons_succ]
      rw [ih (n + 1) j]
      have e : n + 1 + j = n + (j + 1) := by omega
      rw [e]

theorem mem_map_enumerateFrom {α β : Type} (f : ℕ × α → β) :
    ∀ (l : List α) (n : ℕ) (y : β),
      y ∈ (enumerateFrom n l).map f → ∃ m a, a ∈ l ∧ y = f (m, a) := by
  intro l
  induction l with
  | nil => intro n y h; simp [enumerateFrom] at h
  | cons b t ih =>
    intro n y h
    rw [show enumerateFrom n (b :: t) = (n, b) :: enumerateFrom (n + 1) t
      from rfl, List.map_cons, List.mem_cons] at h
    rcases h with h | h
    · exact ⟨n, b, List.mem_cons_self b t, h⟩
    · obtain ⟨m, a, ha, hy⟩ := ih (n + 1) y h
      exact ⟨m, a, List.mem_cons_of_mem _ ha, hy⟩

theorem pairwise_map_enumerateFrom {α β : Type} (f : ℕ × α → β)
    (P : α → α → Prop) (Q : β → β → Prop)
    (hPQ : ∀ (n m : ℕ) (a b : α), P a b → Q (f (n, a)) (f (m, b))) :
    ∀ (l : List α) (n : ℕ), l.Pairwise P →
      ((enumerateFrom n l).map f).Pairwise Q := by
  intro l
  induction l with
  | nil => intro n _; exact List.Pairwise.nil
  | cons a t ih =>
    intro n hp
    rw [show enumerateFrom n (a :: t) = (n, a) :: enumerateFrom (n + 1) t
      from rfl, List.map_cons]
    rcases List.pairwise_cons.mp hp with ⟨ha, ht⟩
    refine List.pairwise_cons.mpr ⟨?_, ih (n + 1) ht⟩
    intro y hy
    obtain ⟨m, b, hb, hyb⟩ := mem_map_enumerateFrom f t (n + 1) y hy
    rw [hyb]
    exact hPQ n m a b (ha b hb)

theorem conf_entries_props (team_name team_abbr : ℤ → String)
    (L : List (ℤ × TeamStats)) :
    ((((enumerateFrom 1 (L.mergeSort fun a b =>
        decide (b.2.projected_wins ≤ a.2.projected_wins))).map fun re =>
      ({ rank := re.1, team_id := re.2.1, team_name := team_name re.2.1,
         team_abbreviation := team_abbr re.2.1,
         projected_wins := re.2.2.projected_wins,
         projected_losses := re.2.2.projected_losses,
         win_percentage := re.2.2.win_percentage,
         playoff_probability := re.2.2.playoff_probability,
         championship_odds := re.2.2.championship_odds } : SeedEntry)).map
        (·.team_id)).Perm (L.map Prod.fst)) ∧
    (∀ (i : ℕ) (e : SeedEntry),
      ((enumerateFrom 1 (L.mergeSort fun a b =>
          decide (b.2.projected_wins ≤ a.2.projected_wins))).map fun re =>
        ({ rank := re.1, team_id := re.2.1, team_name := team_name re.2.1,
           team_abbreviation := team_abbr re.2.1,
           projected_wins := re.2.2.projected_wins,
           projected_losses := re.2.2.projected_losses,
           win_percentage := re.2.2.win_percentage,
           playoff_probability := re.2.2.playoff_probability,
           championship_odds := re.2.2.championship_odds } : SeedEntry))[i]? =
        some e → e.rank = i + 1) ∧
    ((enumerateFrom 1 (L.mergeSort fun a b =>
        decide (b.2.projected_wins ≤ a.2.projected_wins))).map fun re =>
      ({ rank := re.1, team_id := re.2.1, team_name := team_name re.2.1,
         team_abbreviation := team_abbr re.2.1,
         projected_wins := re.2.2.projected_wins,
         projected_losses := re.2.2.projected_losses,
         win_percentage := re.2.2.win_percentage,
         playoff_probability := re.2.2.playoff_probability,
         championship_odds := re.2.2.championship_odds } : SeedEntry)).Pairwise
      (fun x y => y.projected_wins ≤ x.projected_wins) := by
  refine ⟨?_, ?_, ?_⟩
  · rw [enumerateFrom_map_proj
      (fun re : ℕ × (ℤ × TeamStats) =>
        ({ rank := re.1, team_id := re.2.1, team_name := team_name re.2.1,
           team_abbreviation := team_abbr re.2.1,
           projected_wins := re.2.2.projected_wins,
           projected_losses := re.2.2.projected_losses,
           win_percentage := re.2.2.win_percentage,
           playoff_probability := re.2.2.playoff_probability,
           championship_odds := re.2.2.championship_odds } : SeedEntry))
      (fun x : SeedEntry => x.team_id) Prod.fst (fun p => rfl)]
    exact (List.mergeSort_perm L _).map Prod.fst
  · intro i e h
    rw [map_enumerateFrom_getElem] at h
    cases hg : (L.mergeSort fun a b =>
        decide (b.2.projected_wins ≤ a.2.projected_wins))[i]? with
    | none => rw [hg] at h; simp at h
    | some a =>
      rw [hg] at h
      simp only [Option.map_some'] at h
      rw [← Option.some_inj.mp h]
      dsimp only
      omega
  · have hsorted := @List.sorted_mergeSort (ℤ × TeamStats)
      (fun a b : ℤ × TeamStats =>
        decide (b.2.projected_wins ≤ a.2.projected_wins))
      (fun a b c hab hbc => by
        simp only [decide_eq_true_eq] at *
        exact le_trans hbc hab)
      (fun a b => by
        simp only [Bool.or_eq_true, decide_eq_true_eq]
        exact le_total b.2.projected_wins a.2.projected_wins)
      L
    refine pairwise_map_enumerateFrom _
      (fun a b : ℤ × TeamStats =>
        decide (b.2.projected_wins ≤ a.2.projected_wins) = true)
      _ ?_ _ 1 hsorted
    intro n m a b hab
    simp only [decide_eq_true_eq] at hab
    exact hab

/-- C7: for a two-conference team list and any positive simulation count,
each conference's standings sequence is a permutation of that conference's
teams, sorted descending by projected wins, with rank `i + 1` at position
`i`. -/
theorem C7_standings_sorted_permutation (ratings : Ratings) (rng : Rng)
    (team_name team_abbr : ℤ → String) (ts1 ts2 : List ℤ)
    (simulations : ℤ) (pos : ℕ) (hs : 1 ≤ simulations) :
    ∃ e1 e2,
      simulate_season_standings ratings rng team_name team_abbr
          [("Eastern", ts1), ("Western", ts2)] simulations pos =
        [("Eastern", e1), ("Western", e2)] ∧
      (e1.map (·.team_id)).Perm ts1 ∧
      (e2.map (·.team_id)).Perm ts2 ∧
      (∀ (i : ℕ) (e : SeedEntry), e1[i]? = some e → e.rank = i + 1) ∧
      (∀ (i : ℕ) (e : SeedEntry), e2[i]? = some e → e.rank = i + 1) ∧
      e1.Pairwise (fun x y => y.projected_wins ≤ x.projected_wins) ∧
      e2.Pairwise (fun x y => y.projected_wins ≤ x.projected_wins) := by
  have hs0 : simulations ≠ 0 := by omega
  obtain ⟨L1, p1, hc1, hm1⟩ :=
    simulate_conference_season_some ratings rng ts1 simulations hs0 pos
  obtain ⟨L2, p2, hc2, hm2⟩ :=
    simulate_conference_season_some ratings rng ts2 simulations hs0 p1
  obtain ⟨hperm1, hrank1, hsort1⟩ := conf_entries_props team_name team_abbr L1
  obtain ⟨hperm2, hrank2, hsort2⟩ := conf_entries_props team_name team_abbr L2
  unfold simulate_season_standings
  simp only [List.foldl_cons, List.foldl_nil]
  rw [hc1]
  dsimp only
  simp only [appendConf, List.lookup, String.reduceBEq, String.reduceEq,
    Option.isSome_some, reduceIte, List.map_cons, List.map_nil,
    List.nil_append]
  rw [hc2]
  dsimp only
  try simp only [appendConf, List.lookup, String.reduceBEq, String.reduceEq,
    Option.isSome_some, reduceIte, List.map_cons, List.map_nil,
    List.nil_append]
  refine ⟨_, _, rfl, ?_, ?_, hrank1, hrank2, hsort1, hsort2⟩
  · rw [← hm1]
    exact hperm1
  · rw [← hm2]
    exact hperm2

/-- Witness for C7 at a concrete input. -/
theorem C7_witness :
    ∃ e1 e2,
      simulate_season_standings constRatings rng14 (fun _ => "") (fun _ => "")
          [("Eastern", [1]), ("Western", [2])] 1 0 =
        [("Eastern", e1), ("Western", e2)] ∧
      (e1.map (·.team_id)).Perm [1] ∧
      (e2.map (·.team_id)).Perm [2] ∧
      (∀ (i : ℕ) (e : SeedEntry), e1[i]? = some e → e.rank = i + 1) ∧
      (∀ (i : ℕ) (e : SeedEntry), e2[i]? = some e → e.rank = i + 1) ∧
      e1.Pairwise (fun x y => y.projected_wins ≤ x.projected_wins) ∧
      e2.Pairwise (fun x y => y.projected_wins ≤ x.projected_wins) :=
  C7_standings_sorted_permutation constRatings rng14 (fun _ => "") (fun _ => "")
    [1] [2] 1 0 (le_refl 1)
